import Mathlib

/-!
Shallow embedding of the tour_finder_agent repository (Python) in Lean 4.

Modelled source files:
- `src/virtual_sales_agent/tools.py` : transliteration table, location
  resolution, the two successive module-level `search_tours` definitions,
  `search_tours_for_location`, suggestion builders, `get_tour_details`.
- `src/main.py` / `src/bot.py` : `ConversationManager` over the module-level
  conversation-context dictionary.

The remote tours API is modelled as an explicit oracle (`Env`): each claim
quantifies over every fixed behaviour of the remote API.  Python `dict`
results are modelled as structures whose absent keys are `none`.  Python
`list(set(..))` has unspecified iteration order; it is modelled as
first-occurrence deduplication, and no theorem below depends on the chosen
order.
-/

namespace TourAgent

/-- Model of Python `str.lower()` restricted to the character ranges relevant
to this code base: ASCII letters, the Latin-1 supplement uppercase letters
(these appear in the source's transliteration values via their mojibake
encoding), and the Cyrillic uppercase range. -/
def pyCharLower (c : Char) : Char :=
  if 'A' ≤ c ∧ c ≤ 'Z' then Char.ofNat (c.toNat + 32)
  else if 0xC0 ≤ c.toNat ∧ c.toNat ≤ 0xDE ∧ c.toNat ≠ 0xD7 then Char.ofNat (c.toNat + 32)
  else if 0x400 ≤ c.toNat ∧ c.toNat ≤ 0x40F then Char.ofNat (c.toNat + 80)
  else if 0x410 ≤ c.toNat ∧ c.toNat ≤ 0x42F then Char.ofNat (c.toNat + 32)
  else c

/-- Model of Python `str.lower()` on a whole string. -/
def pyLower (s : String) : String :=
  String.mk (s.toList.map pyCharLower)

/-- Whitespace characters stripped by Python `str.strip()` (ASCII subset). -/
def pyIsSpace (c : Char) : Bool :=
  c = ' ' ∨ c = '\t' ∨ c = '\n' ∨ c = '\r' ∨ c = Char.ofNat 0x0b ∨ c = Char.ofNat 0x0c

/-- Model of Python `str.strip()`: drop leading and trailing whitespace. -/
def pyStrip (s : String) : String :=
  String.mk (((s.toList.dropWhile pyIsSpace).reverse.dropWhile pyIsSpace).reverse)

/-- The normalisation applied by `normalize_and_transliterate`:
`name.lower().strip()`. -/
def pyNormalize (name : String) : String :=
  pyStrip (pyLower name)

/-- Helper for Python's substring operator: `needle` occurs in `hay`. -/
def listContainsSub (hay needle : List Char) : Bool :=
  if needle.isPrefixOf hay then true
  else match hay with
    | [] => false
    | _ :: t => listContainsSub t needle

/-- Model of Python `needle in hay` on strings (substring containment). -/
def pyIn (needle hay : String) : Bool :=
  listContainsSub hay.toList needle.toList

/-- Lookup in a Python dict literal modelled as an association list.  The
source dict has no duplicate keys, so first-match lookup coincides with
Python semantics. -/
def mapLookup (m : List (String × String)) (k : String) : Option String :=
  (m.find? (fun p => p.1 = k)).map (·.2)

/-- Lookup in the inverted dict `{v: k for k, v in m.items()}`: in Python a
later pair overwrites an earlier one with the same value, so the lookup
scans the reversed list. -/
def reverseLookup (m : List (String × String)) (v : String) : Option String :=
  (m.reverse.find? (fun p => p.2 = v)).map (·.1)

/-- Model of Python `list(set(xs))`: duplicates removed.  The iteration
order of a Python set is unspecified; this model keeps the first
occurrence.  No theorem below depends on this order choice. -/
def pySetList (xs : List String) : List String :=
  (xs.foldl (fun acc x => if x ∈ acc then acc else acc ++ [x]) [])

/-- TRANSLITERATION_MAP from `tools.py` lines 20-240, copied verbatim
(the source file stores the Cyrillic values in a mojibake encoding; the
strings below are byte-for-byte the strings the Python program would
construct from that file). -/
def TRANSLITERATION_MAP : List (String × String) := [
  ("toshkent", "Ñ‚Ğ°ÑˆĞºĞµĞ½Ñ‚"),
  ("tashkent", "Ñ‚Ğ°ÑˆĞºĞµĞ½Ñ‚"),
  ("samarqand", "ÑĞ°Ğ¼Ğ°Ñ€ĞºĞ°Ğ½Ğ´"),
  ("samarkand", "ÑĞ°Ğ¼Ğ°Ñ€ĞºĞ°Ğ½Ğ´"),
  ("buxoro", "Ğ±ÑƒÑ…Ğ°Ñ€Ğ°"),
  ("bukhara", "Ğ±ÑƒÑ…Ğ°Ñ€Ğ°"),
  ("xiva", "Ñ…Ğ¸Ğ²Ğ°"),
  ("khiva", "Ñ…Ğ¸Ğ²Ğ°"),
  ("namangan", "Ğ½Ğ°Ğ¼Ğ°Ğ½Ğ³Ğ°Ğ½"),
  ("farg\x27ona", "Ñ„ĞµÑ€Ğ³Ğ°Ğ½Ğ°"),
  ("fergana", "Ñ„ĞµÑ€Ğ³ana"),
  ("fargona", "Ñ„ĞµÑ€Ğ³Ğ°Ğ½Ğ°"),
  ("turkiya", "Ñ‚ÑƒÑ€Ñ†Ğ¸Ñ"),
  ("turkey", "Ñ‚ÑƒÑ€Ñ†Ğ¸Ñ"),
  ("turtsiya", "Ñ‚ÑƒÑ€Ñ†Ğ¸Ñ"),
  ("o\x27zbekiston", "ÑƒĞ·Ğ±ĞµĞºĞ¸ÑÑ‚Ğ°Ğ½"),
  ("ozbekiston", "ÑƒĞ·Ğ±ĞµĞºĞ¸ÑÑ‚Ğ°Ğ½"),
  ("uzbekistan", "ÑƒĞ·Ğ±ĞµĞºĞ¸ÑÑ‚Ğ°Ğ½"),
  ("fransiya", "Ñ„Ñ€Ğ°Ğ½Ñ†Ğ¸Ñ"),
  ("france", "Ñ„Ñ€Ğ°Ğ½Ñ†Ğ¸Ñ"),
  ("baa", "Ğ¾Ğ°Ñ"),
  ("uae", "Ğ¾Ğ°Ñ"),
  ("emirates", "Ğ¾Ğ°Ñ"),
  ("misr", "ĞµĞ³Ğ¸Ğ¿ĞµÑ‚"),
  ("egypt", "ĞµĞ³Ğ¸Ğ¿ĞµÑ‚"),
  ("tailand", "Ñ‚Ğ°Ğ¸Ğ»Ğ°Ğ½Ğ´"),
  ("thailand", "Ñ‚Ğ°Ğ¸Ğ»Ğ°Ğ½Ğ´"),
  ("malayziya", "Ğ¼Ğ°Ğ»Ğ°Ğ¹Ğ·Ğ¸Ñ"),
  ("malaysia", "Ğ¼Ğ°Ğ»Ğ°Ğ¹Ğ·Ğ¸Ñ"),
  ("indoneziya", "Ğ¸Ğ½Ğ´Ğ¾Ğ½ĞµĞ·Ğ¸Ñ"),
  ("indonesia", "Ğ¸Ğ½Ğ´Ğ¾Ğ½ĞµĞ·Ğ¸Ñ"),
  ("maldiv orollari", "Ğ¼Ğ°Ğ»ÑŒĞ´Ğ¸Ğ²Ñ‹"),
  ("maldiv", "Ğ¼Ğ°Ğ»ÑŒĞ´Ğ¸Ğ²Ñ‹"),
  ("maldives", "Ğ¼Ğ°Ğ»ÑŒĞ´Ğ¸Ğ²Ñ‹"),
  ("maldivy", "Ğ¼Ğ°Ğ»ÑŒĞ´Ğ¸Ğ²Ñ‹"),
  ("hindiston", "Ğ¸Ğ½Ğ´Ğ¸Ñ"),
  ("india", "Ğ¸Ğ½Ğ´Ğ¸Ñ"),
  ("singapur", "ÑĞ¸Ğ½Ğ³Ğ°Ğ¿ÑƒÑ€"),
  ("singapore", "ÑĞ¸Ğ½Ğ³Ğ°Ğ¿ÑƒÑ€"),
  ("xitoy", "ĞºĞ¸Ñ‚Ğ°Ğ¹"),
  ("china", "ĞºĞ¸Ñ‚Ğ°Ğ¹"),
  ("kitay", "ĞºĞ¸Ñ‚Ğ°Ğ¹"),
  ("gruziya", "Ğ³Ñ€ÑƒĞ·Ğ¸Ñ"),
  ("georgia", "Ğ³Ñ€ÑƒĞ·Ğ¸Ñ"),
  ("vetnam", "Ğ²ÑŒĞµÑ‚Ğ½Ğ°Ğ¼"),
  ("vietnam", "Ğ²ÑŒĞµÑ‚Ğ½Ğ°Ğ¼"),
  ("ozarbayjon", "Ğ°Ğ·ĞµÑ€Ğ±Ğ°Ğ¹Ğ´Ğ¶Ğ°Ğ½"),
  ("azerbayjan", "Ğ°Ğ·ĞµÑ€Ğ±Ğ°Ğ¹Ğ´Ğ¶Ğ°Ğ½"),
  ("azerbaijan", "Ğ°Ğ·ĞµÑ€Ğ±Ğ°Ğ¹Ğ´Ğ¶Ğ°Ğ½"),
  ("qatar", "ĞºĞ°Ñ‚Ğ°Ñ€"),
  ("katar", "ĞºĞ°Ñ‚Ğ°Ñ€"),
  ("ummon sultonligi", "Ğ¾Ğ¼Ğ°Ğ½"),
  ("ummon", "Ğ¾Ğ¼Ğ°Ğ½"),
  ("oman", "Ğ¾Ğ¼Ğ°Ğ½"),
  ("shri lanka", "ÑˆÑ€Ğ¸-Ğ»Ğ°Ğ½ĞºĞ°"),
  ("sri lanka", "ÑˆÑ€Ğ¸-Ğ»Ğ°Ğ½ĞºĞ°"),
  ("qozog\x27iston", "ĞºĞ°Ğ·Ğ°Ñ…ÑÑ‚Ğ°Ğ½"),
  ("qozogiston", "ĞºĞ°Ğ·Ğ°Ñ…ÑÑ‚Ğ°Ğ½"),
  ("kazakhstan", "ĞºĞ°Ğ·Ğ°Ñ…ÑÑ‚Ğ°Ğ½"),
  ("saudiya arabistoni", "ÑĞ°ÑƒĞ´Ğ¾Ğ²ÑĞºĞ°Ñ Ğ°Ñ€Ğ°Ğ²Ğ¸Ñ"),
  ("saudiya", "ÑĞ°ÑƒĞ´Ğ¾Ğ²ÑĞºĞ°Ñ Ğ°Ñ€Ğ°Ğ²Ğ¸Ñ"),
  ("saudi arabia", "ÑĞ°ÑƒĞ´Ğ¾Ğ²ÑĞºĞ°Ñ Ğ°Ñ€Ğ°Ğ²Ğ¸Ñ"),
  ("yaponiya", "ÑĞ¿Ğ¾Ğ½Ğ¸Ñ"),
  ("japan", "ÑĞ¿Ğ¾Ğ½Ğ¸Ñ"),
  ("istanbul", "ÑÑ‚Ğ°Ğ¼Ğ±ÑƒĞ»"),
  ("marmaris", "Ğ¼Ğ°Ñ€Ğ¼Ğ°Ñ€Ğ¸Ñ"),
  ("kappadokiya", "ĞºĞ°Ğ¿Ğ¿Ğ°Ğ´Ğ¾ĞºĞ¸Ñ"),
  ("cappadocia", "ĞºĞ°Ğ¿Ğ¿Ğ°Ğ´Ğ¾ĞºĞ¸Ñ"),
  ("antaliya", "Ğ°Ğ½Ñ‚Ğ°Ğ»ÑŒÑ"),
  ("antalya", "Ğ°Ğ½Ñ‚Ğ°Ğ»ÑŒÑ"),
  ("bodrum", "Ğ±Ğ¾Ğ´Ñ€ÑƒĞ¼"),
  ("bursa", "Ğ±ÑƒÑ€ÑĞ°"),
  ("dalaman", "Ğ´Ğ°Ğ»Ğ°Ğ¼Ğ°Ğ½"),
  ("anqara", "Ğ°Ğ½ĞºĞ°Ñ€Ğ°"),
  ("ankara", "Ğ°Ğ½ĞºĞ°Ñ€Ğ°"),
  ("sovg\x27a", "Ğ±ĞµĞ»ĞµĞº"),
  ("belek", "Ğ±ĞµĞ»ĞµĞº"),
  ("side", "ÑĞ¸Ğ´Ğµ"),
  ("izmir", "Ğ¸Ğ·Ğ¼Ğ¸Ñ€"),
  ("kushadasi", "ĞºÑƒÑˆĞ°Ğ´Ğ°ÑÑ‹"),
  ("trabzon", "Ñ‚Ñ€Ğ°Ğ±Ğ·Ğ¾Ğ½"),
  ("kemer", "ĞºĞµĞ¼ĞµÑ€"),
  ("alanya", "Ğ°Ğ»Ğ°Ğ½ÑŒÑ"),
  ("fethiye", "Ñ„ĞµÑ‚Ñ…Ğ¸Ğµ"),
  ("dubay", "Ğ´ÑƒĞ±Ğ°Ğ¹"),
  ("dubai", "Ğ´ÑƒĞ±Ğ°Ğ¹"),
  ("abu-dabi", "Ğ°Ğ±Ñƒ-Ğ´Ğ°Ğ±Ğ¸"),
  ("abu dhabi", "Ğ°Ğ±Ñƒ-Ğ´Ğ°Ğ±Ğ¸"),
  ("sharja", "ÑˆĞ°Ñ€Ğ´Ğ¶Ğ°"),
  ("sharjah", "ÑˆĞ°Ñ€Ğ´Ğ¶Ğ°"),
  ("ras-al-xayma", "Ñ€Ğ°Ñ-ÑĞ»ÑŒ-Ñ…Ğ°Ğ¹Ğ¼Ğ°"),
  ("ras al khaimah", "Ñ€Ğ°Ñ-ÑĞ»ÑŒ-Ñ…Ğ°Ğ¹Ğ¼Ğ°"),
  ("fujeyra", "Ñ„ÑƒĞ´Ğ¶ĞµĞ¹Ñ€Ğ°"),
  ("fujairah", "Ñ„ÑƒĞ´Ğ¶ĞµĞ¹Ñ€Ğ°"),
  ("pxuket", "Ğ¿Ñ…ÑƒĞºĞµÑ‚"),
  ("phuket", "Ğ¿Ñ…ÑƒĞºĞµÑ‚"),
  ("bangkok", "Ğ±Ğ°Ğ½Ğ³ĞºĞ¾Ğº"),
  ("pattaya", "Ğ¿Ğ°Ñ‚Ñ‚Ğ°Ğ¹Ñ"),
  ("sharm al-shayx", "ÑˆĞ°Ñ€Ğ¼-ÑĞ»ÑŒ-ÑˆĞµĞ¹Ñ…"),
  ("sharm el sheikh", "ÑˆĞ°Ñ€Ğ¼-ÑĞ»ÑŒ-ÑˆĞµĞ¹Ñ…"),
  ("hurghada", "Ñ…ÑƒÑ€Ğ³Ğ°Ğ´Ğ°"),
  ("kuala-lumpur", "ĞºÑƒĞ°Ğ»Ğ°-Ğ»ÑƒĞ¼Ğ¿ÑƒÑ€"),
  ("kuala lumpur", "ĞºÑƒĞ°Ğ»Ğ°-Ğ»ÑƒĞ¼Ğ¿ÑƒÑ€"),
  ("penang", "Ğ¿ĞµĞ½Ğ°Ğ½Ğ³"),
  ("langkawi", "Ğ»Ğ°Ğ½Ğ³ĞºĞ°Ğ²Ğ¸"),
  ("bali", "Ğ±Ğ°Ğ»Ğ¸"),
  ("jakarta", "Ğ´Ğ¶Ğ°ĞºĞ°Ñ€Ñ‚Ğ°"),
  ("denpasar", "Ğ´ĞµĞ½Ğ¿Ğ°ÑĞ°Ñ€"),
  ("male", "Ğ¼Ğ°Ğ»Ğµ"),
  ("bodufoludo", "Ğ±Ğ¾Ğ´Ğ°Ñ„Ğ¾Ğ»ÑƒĞ´Ñƒ"),
  ("feridu", "Ñ„ĞµÑ€Ğ¸Ğ´Ñƒ"),
  ("todu", "Ñ‚Ğ¾Ğ´Ğ´Ñƒ"),
  ("goa", "Ğ³Ğ¾Ğ°"),
  ("dehli", "Ğ´ĞµĞ»Ğ¸"),
  ("delhi", "Ğ´ĞµĞ»Ğ¸"),
  ("mumbay", "Ğ¼ÑƒĞ¼Ğ±Ğ°Ğ¸"),
  ("mumbai", "Ğ¼ÑƒĞ¼Ğ±Ğ°Ğ¸"),
  ("pekin", "Ğ¿ĞµĞºĞ¸Ğ½"),
  ("beijing", "Ğ¿ĞµĞºĞ¸Ğ½"),
  ("shanxay", "ÑˆĞ°Ğ½Ñ…Ğ°Ğ¹"),
  ("shanghai", "ÑˆĞ°Ğ½Ñ…Ğ°Ğ¹"),
  ("guanchjou", "Ğ³ÑƒĞ°Ğ½Ñ‡Ğ¶Ğ¾Ñƒ"),
  ("guangzhou", "Ğ³ÑƒĞ°Ğ½Ñ‡Ğ¶Ğ¾Ñƒ"),
  ("xaynan", "Ñ…Ğ°Ğ¹Ğ½Ğ°Ğ½ÑŒ"),
  ("hainan", "Ñ…Ğ°Ğ¹Ğ½Ğ°Ğ½ÑŒ"),
  ("sanya", "ÑĞ°Ğ½ÑŒÑ"),
  ("fukuok", "Ñ„ÑƒĞºÑƒĞ¾Ğº"),
  ("phu quoc", "Ñ„ÑƒĞºÑƒĞ¾Ğº"),
  ("nyachang", "Ğ½ÑÑ‡Ğ°Ğ½Ğ³"),
  ("nha trang", "Ğ½ÑÑ‡Ğ°Ğ½Ğ³"),
  ("nha-trang", "Ğ½ÑÑ‡Ğ°Ğ½Ğ³"),
  ("danang", "Ğ´Ğ°Ğ½Ğ°Ğ½Ğ³"),
  ("hoi an", "Ñ…Ğ¾Ğ¹Ğ°Ğ½"),
  ("kamran", "ĞºĞ°Ğ¼Ñ€Ğ°Ğ½ÑŒ"),
  ("baku", "Ğ±Ğ°ĞºÑƒ"),
  ("naftalan", "Ğ½Ğ°Ñ„Ñ‚Ğ°Ğ»Ğ°Ğ½"),
  ("lenkoran", "Ğ»ĞµĞ½ĞºĞ¾Ñ€Ğ°Ğ½ÑŒ"),
  ("tbilisi", "Ñ‚Ğ±Ğ¸Ğ»Ğ¸ÑĞ¸"),
  ("borjomi", "Ğ±Ğ¾Ñ€Ğ¶Ğ¾Ğ¼Ğ¸"),
  ("doha", "Ğ´Ğ¾Ñ…Ğ°"),
  ("maskat", "Ğ¼Ğ°ÑĞºĞ°Ñ‚"),
  ("muscat", "Ğ¼Ğ°ÑĞºĞ°Ñ‚"),
  ("salala", "ÑĞ°Ğ»Ğ°Ğ»Ğ°"),
  ("salalah", "ÑĞ°Ğ»Ğ°Ğ»Ğ°"),
  ("tokio", "Ñ‚Ğ¾ĞºĞ¸Ğ¾"),
  ("tokyo", "Ñ‚Ğ¾ĞºĞ¸Ğ¾"),
  ("parij", "Ğ¿Ğ°Ñ€Ğ¸Ğ¶"),
  ("paris", "Ğ¿Ğ°Ñ€Ğ¸Ğ¶")]

/-- Embedding of `normalize_and_transliterate` (tools.py lines 243-257). -/
def normalize_and_transliterate (name : String) : List String :=
  let normalized := pyNormalize name
  let variants := [normalized]
  let variants :=
    match mapLookup TRANSLITERATION_MAP normalized with
    | some v => variants ++ [v]
    | none => variants
  let variants :=
    match reverseLookup TRANSLITERATION_MAP normalized with
    | some k => variants ++ [k]
    | none => variants
  pySetList variants

/-- Raw city record of the remote locations API (a child inside a country). -/
structure City where
  id : Nat
  name : String
deriving DecidableEq, Repr

/-- Raw country record of the remote locations API (`with_child=1`). -/
structure Country where
  id : Nat
  name : String
  children : List City
deriving DecidableEq, Repr

/-- The `city_info` dict built inside `find_location_comprehensive`
(destination mode). -/
structure CityInfo where
  id : Nat
  name : String
  variants : List String
  country : String
  country_id : Nat
deriving DecidableEq, Repr

/-- The `country_info` dict built inside `find_location_comprehensive`.
In Python its `cities` list is filled by mutation during the scan, and the
scan only reads it after it is complete, so building it up-front is
observationally equal. -/
structure CountryInfo where
  id : Nat
  name : String
  variants : List String
  cities : List CityInfo
deriving DecidableEq, Repr

/-- A location-info dict that can be either a city or a country (the type
of the `exact_match` / `searched_location` values). -/
inductive MatchInfo
  | city (c : CityInfo)
  | country (c : CountryInfo)
deriving DecidableEq, Repr

/-- Python `info["name"]`. -/
def matchName : MatchInfo → String
  | MatchInfo.city c => c.name
  | MatchInfo.country c => c.name

/-- Python `info["type"]`. -/
def matchType : MatchInfo → String
  | MatchInfo.city _ => "city"
  | MatchInfo.country _ => "country"

/-- Python `info["id"]`. -/
def matchId : MatchInfo → Nat
  | MatchInfo.city c => c.id
  | MatchInfo.country c => c.id

/-- Python `info.get("cities", [])`: a city dict has no `cities` key, so the
default empty list is returned for it. -/
def matchCities : MatchInfo → List CityInfo
  | MatchInfo.city _ => []
  | MatchInfo.country c => c.cities

/-- Python `info.get("country")`: only city dicts carry a `country` key. -/
def matchCountryName : MatchInfo → Option String
  | MatchInfo.city c => some c.country
  | MatchInfo.country _ => none

/-- Build the `city_info` dict for a city inside a country. -/
def mkCityInfo (co : Country) (c : City) : CityInfo :=
  { id := c.id, name := c.name, variants := normalize_and_transliterate c.name,
    country := co.name, country_id := co.id }

/-- Build the `country_info` dict for a country. -/
def mkCountryInfo (co : Country) : CountryInfo :=
  { id := co.id, name := co.name, variants := normalize_and_transliterate co.name,
    cities := co.children.map (mkCityInfo co) }

/-- Mutable state threaded through the scan in `find_location_comprehensive`. -/
structure FindState where
  exact_match : Option MatchInfo := none
  country_match : Option CountryInfo := none
  city_matches : List CityInfo := []
deriving Repr

/-- Pairs `(search_variant, location_variant)` in the iteration order of the
two nested `for` loops (search variants outer). -/
def variantPairs (svs vs : List String) : List (String × String) :=
  svs.flatMap (fun sv => vs.map (fun v => (sv, v)))

/-- One step of the country-matching inner loops (tools.py lines 332-339):
equality overwrites both `country_match` and `exact_match`; containment only
fills `country_match` when it is still unset (an existing dict is truthy). -/
def countryPairStep (ci : CountryInfo) (st : FindState) (p : String × String) : FindState :=
  if p.1 = p.2 then
    { st with country_match := some ci, exact_match := some (MatchInfo.country ci) }
  else if pyIn p.1 p.2 || pyIn p.2 p.1 then
    if st.country_match.isNone then { st with country_match := some ci } else st
  else st

/-- One step of the city-matching inner loops (tools.py lines 355-361):
equality sets `exact_match` and also appends to `city_matches`; containment
only appends. -/
def cityPairStep (ci : CityInfo) (st : FindState) (p : String × String) : FindState :=
  if p.1 = p.2 then
    { st with exact_match := some (MatchInfo.city ci),
              city_matches := st.city_matches ++ [ci] }
  else if pyIn p.1 p.2 || pyIn p.2 p.1 then
    { st with city_matches := st.city_matches ++ [ci] }
  else st

/-- Process one country of the cached location data: first the country-level
match, then each of its cities in order. -/
def processCountry (svs : List String) (st : FindState) (co : Country) : FindState :=
  let cinfo := mkCountryInfo co
  let st := (variantPairs svs cinfo.variants).foldl (countryPairStep cinfo) st
  cinfo.cities.foldl
    (fun st ci => (variantPairs svs ci.variants).foldl (cityPairStep ci) st) st

/-- Deduplication of `city_matches` by id keeping the first occurrence
(tools.py lines 389-394). -/
def uniqueById (cs : List CityInfo) : List CityInfo :=
  (cs.foldl
    (fun (acc : List CityInfo × List Nat) c =>
      if c.id ∈ acc.2 then acc else (acc.1 ++ [c], acc.2 ++ [c.id]))
    ([], [])).1

/-- The dict returned by `find_location_comprehensive` in destination mode.
When the location cache is empty the Python function returns early with a
dict lacking the `all_countries` and `all_cities` keys; all reads of those
keys on that path go through `.get(_, [])` or are unreachable, so the early
return is modelled with empty lists. -/
structure FindResult where
  exact_match : Option MatchInfo
  country_match : Option CountryInfo
  city_matches : List CityInfo
  all_countries : List CountryInfo
  all_cities : List CityInfo
deriving DecidableEq, Repr

/-- Embedding of `find_location_comprehensive` (tools.py lines 294-402),
destination mode.  `locations` is the cached result of `get_locations_data`
(the cache, or `[]` when the fetch failed). -/
def find_location_comprehensive (locations : List Country) (location_name : String) :
    FindResult :=
  if locations.isEmpty then
    { exact_match := none, country_match := none, city_matches := [],
      all_countries := [], all_cities := [] }
  else
    let svs := normalize_and_transliterate location_name
    let st := locations.foldl (processCountry svs) {}
    let infos := locations.map mkCountryInfo
    { exact_match := st.exact_match,
      country_match := st.country_match,
      city_matches := uniqueById st.city_matches,
      all_countries := infos,
      all_cities := infos.foldl (fun acc ci => acc ++ ci.cities) [] }

/-- The `city_info` dict built in origin mode (no country fields). -/
structure OriginCityInfo where
  id : Nat
  name : String
  variants : List String
deriving DecidableEq, Repr

/-- The dict returned by `find_location_comprehensive` in origin mode
(restricted to the fields the callers read; `country_match` and
`all_countries` are always `None` / `[]` there). -/
structure OriginFindResult where
  exact_match : Option OriginCityInfo
  city_matches : List OriginCityInfo
  all_cities : List OriginCityInfo
deriving DecidableEq, Repr

/-- Origin-mode scan state. -/
structure OriginState where
  exact_match : Option OriginCityInfo := none
  city_matches : List OriginCityInfo := []
deriving Repr

/-- One step of the origin-mode inner loops (tools.py lines 379-384). -/
def originPairStep (ci : OriginCityInfo) (st : OriginState) (p : String × String) :
    OriginState :=
  if p.1 = p.2 then { st with exact_match := some ci }
  else if pyIn p.1 p.2 || pyIn p.2 p.1 then
    { st with city_matches := st.city_matches ++ [ci] }
  else st

/-- Embedding of `find_location_comprehensive` in origin mode
(tools.py lines 368-386). -/
def find_location_origin (locations : List City) (location_name : String) :
    OriginFindResult :=
  if locations.isEmpty then
    { exact_match := none, city_matches := [], all_cities := [] }
  else
    let svs := normalize_and_transliterate location_name
    let infos := locations.map
      (fun c => OriginCityInfo.mk c.id c.name (normalize_and_transliterate c.name))
    let st := infos.foldl
      (fun st ci => (variantPairs svs ci.variants).foldl (originPairStep ci) st)
      {}
    { exact_match := st.exact_match,
      city_matches := (st.city_matches.foldl
        (fun (acc : List OriginCityInfo × List Nat) c =>
          if c.id ∈ acc.2 then acc else (acc.1 ++ [c], acc.2 ++ [c.id]))
        ([], [])).1,
      all_cities := infos }

/-- A tour record from the remote API: an opaque dict of which only the
`price` and `days` keys are inspected (absent keys are `none`); `tag`
stands for the rest of the payload. -/
structure Tour where
  price : Option Int := none
  days : Option Int := none
  tag : String := ""
deriving DecidableEq, Repr

/-- Parsed JSON body of a `GET /tours` response. -/
structure ApiBody where
  success : Bool
  data : List Tour
deriving DecidableEq, Repr

/-- Outcome of one HTTP request to the tours API: either an exception
(network error or a JSON body that fails to parse — both raise in Python)
or an HTTP response whose body parses. -/
inductive ApiOutcome
  | exn (msg : String)
  | http (status : Nat) (body : ApiBody)
deriving DecidableEq, Repr

/-- The query parameters shared by every `GET /tours` request issued inside
one `search_tours` call (`origin_location_child_id`, `origin_date`,
`sort`). -/
structure TourQuery where
  origin_id : Option Nat := none
  origin_date : Option String := none
  sort : Option String := none
deriving DecidableEq, Repr

/-- Environment of one call: the cached location data (the cache contents,
or `[]` when the fetch failed — `get_locations_data` catches its own
errors) and one fixed behaviour of the remote tours API. -/
structure Env where
  locations : List Country
  origin_locations : List City
  searchApi : TourQuery → Nat → ApiOutcome
  allApi : TourQuery → ApiOutcome

/-- The dict returned by `search_tours_for_location`. -/
structure LocResult where
  success : Bool
  tours : List Tour
  count : Nat
deriving DecidableEq, Repr

/-- Embedding of `search_tours_for_location` (tools.py lines 405-426): any
exception is caught and converted into the failure dict. -/
def search_tours_for_location (o : ApiOutcome) : LocResult :=
  match o with
  | ApiOutcome.exn _ => { success := false, tours := [], count := 0 }
  | ApiOutcome.http status body =>
    if status = 200 ∧ body.success then
      { success := true, tours := body.data, count := body.data.length }
    else
      { success := false, tours := [], count := 0 }

/-- Python truthiness of an optional string argument (`if origin_city:`):
`None` and the empty string are falsy. -/
def truthyString : Option String → Option String
  | some s => if s = "" then none else some s
  | none => none

/-- The `search_params` built at the top of both `search_tours` definitions
(tools.py lines 442-456 and 628-642). -/
def buildQuery (env : Env) (origin_city departure_date : Option String)
    (sort_by : String) : TourQuery :=
  let origin_id :=
    match truthyString origin_city with
    | some oc =>
      match (find_location_origin env.origin_locations oc).exact_match with
      | some c => some c.id
      | none => none
    | none => none
  { origin_id := origin_id,
    origin_date := truthyString departure_date,
    sort := if sort_by = "" then none else some sort_by }

/-- Budget post-filter (identical in both definitions, tools.py lines
525-529 and 744-748): runs only when `budget_max` is truthy (not `None`,
not `0`); keeps tours with a present price that is at most the ceiling. -/
def applyBudgetFilter (budget_max : Option Int) (ts : List Tour) : List Tour :=
  match budget_max with
  | some b => if b ≠ 0 then ts.filter (fun t => t.price.isSome ∧ t.price.getD 0 ≤ b) else ts
  | none => ts

/-- Duration post-filter (tools.py lines 531-535 and 750-754): runs only
when `duration_days` is truthy; keeps tours with a present day-count within
two days of the request. -/
def applyDurationFilter (duration_days : Option Int) (ts : List Tour) : List Tour :=
  match duration_days with
  | some d =>
    if d ≠ 0 then ts.filter (fun t => t.days.isSome ∧ (t.days.getD 0 - d).natAbs ≤ 2) else ts
  | none => ts

/-- Both post-filters in the order the code applies them. -/
def applyFilters (budget_max duration_days : Option Int) (ts : List Tour) : List Tour :=
  applyDurationFilter duration_days (applyBudgetFilter budget_max ts)

/-- State threaded through the fallback strategies of a destination search. -/
structure CascadeState where
  tours_found : List Tour := []
  search_strategy : String := "none"
  searched_location : Option MatchInfo := none
  original_location : Option MatchInfo := none
deriving Repr

/-- Loop of strategy 4 in both definitions: try the candidate cities in
order and take the first whose search succeeds with a positive count. -/
def firstCityWithTours (env : Env) (q : TourQuery) :
    List CityInfo → Option (CityInfo × List Tour)
  | [] => none
  | c :: rest =>
    let r := search_tours_for_location (env.searchApi q c.id)
    if r.success ∧ r.count > 0 then some (c, r.tours)
    else firstCityWithTours env q rest

/-- Union loop over a list of cities (strategies 3 and 5 of the final
definition, strategy 3 of the first): collect the tours of every city whose
search succeeds with a positive count, in order. -/
def unionCityTours (env : Env) (q : TourQuery) (cs : List CityInfo) : List Tour :=
  cs.foldl
    (fun acc c =>
      let r := search_tours_for_location (env.searchApi q c.id)
      if r.success ∧ r.count > 0 then acc ++ r.tours else acc)
    []

/-- Names of the cities in `cs` whose search succeeds with a positive count
(the `cities_with_tours` lists built by the suggestion code). -/
def citiesWithTours (env : Env) (q : TourQuery) (cs : List CityInfo) : List String :=
  cs.foldl
    (fun acc c =>
      let r := search_tours_for_location (env.searchApi q c.id)
      if r.success ∧ r.count > 0 then acc ++ [c.name] else acc)
    []

/-- Strategy 1 of the final definition (tools.py lines 654-663): try the
exact match; `original_location` is recorded before the search. -/
def cascadeStep1 (env : Env) (q : TourQuery) (lr : FindResult) (st : CascadeState) :
    CascadeState :=
  match lr.exact_match with
  | some em =>
    let st := { st with original_location := some em }
    let tr := search_tours_for_location (env.searchApi q (matchId em))
    if tr.success ∧ tr.count > 0 then
      { st with tours_found := tr.tours,
                search_strategy := "exact_match_" ++ matchType em,
                searched_location := some em }
    else st
  | none => st

/-- Strategy 1 of the first definition (tools.py lines 467-475): identical
except that no `original_location` variable exists there. -/
def firstStep1 (env : Env) (q : TourQuery) (lr : FindResult) (st : CascadeState) :
    CascadeState :=
  match lr.exact_match with
  | some em =>
    let tr := search_tours_for_location (env.searchApi q (matchId em))
    if tr.success ∧ tr.count > 0 then
      { st with tours_found := tr.tours,
                search_strategy := "exact_match_" ++ matchType em,
                searched_location := some em }
    else st
  | none => st

/-- Strategy 2, shared shape of both definitions (tools.py lines 666-685
and 477-490): an exact city match with no tours retries the parent country
(`if country_id:` — a zero id is falsy).  The two definitions differ only
in the strategy label (`country_fallback_from_city` vs `country_fallback`),
passed as `label`. -/
def cascadeStep2 (label : String) (env : Env) (q : TourQuery) (lr : FindResult)
    (st : CascadeState) : CascadeState :=
  if st.tours_found.isEmpty then
    match lr.exact_match with
    | some (MatchInfo.city c) =>
      if c.country_id ≠ 0 then
        let tr := search_tours_for_location (env.searchApi q c.country_id)
        if tr.success ∧ tr.count > 0 then
          let searched :=
            match lr.all_countries.find? (fun co => co.id = c.country_id) with
            | some co => some (MatchInfo.country co)
            | none => st.searched_location
          { st with tours_found := tr.tours,
                    search_strategy := label,
                    searched_location := searched }
        else st
      else st
    | _ => st
  else st

/-- Strategy 3 of the final definition (tools.py lines 688-706): an exact
COUNTRY match with no direct tours searches all its cities and unions the
results. -/
def cascadeStep3 (env : Env) (q : TourQuery) (lr : FindResult) (st : CascadeState) :
    CascadeState :=
  if st.tours_found.isEmpty then
    match lr.exact_match with
    | some (MatchInfo.country co) =>
      let allTours := unionCityTours env q co.cities
      if ¬ allTours.isEmpty then
        { st with tours_found := allTours,
                  search_strategy := "cities_in_country",
                  searched_location := some (MatchInfo.country co) }
      else st
    | _ => st
  else st

/-- Strategy 4 of both definitions (tools.py lines 709-719 and 511-519):
try up to three similar-city candidates, first hit wins. -/
def cascadeStep4 (env : Env) (q : TourQuery) (lr : FindResult) (st : CascadeState) :
    CascadeState :=
  if st.tours_found.isEmpty then
    match firstCityWithTours env q (lr.city_matches.take 3) with
    | some (c, ts) =>
      { st with tours_found := ts,
                search_strategy := "similar_city",
                searched_location := some (MatchInfo.city c) }
    | none => st
  else st

/-- Strategy 5 of the final definition (tools.py lines 722-738): a
(possibly partial) `country_match` searches its first five cities and
unions the results. -/
def cascadeStep5 (env : Env) (q : TourQuery) (lr : FindResult) (st : CascadeState) :
    CascadeState :=
  if st.tours_found.isEmpty then
    match lr.country_match with
    | some co =>
      let allTours := unionCityTours env q (co.cities.take 5)
      if ¬ allTours.isEmpty then
        { st with tours_found := allTours,
                  search_strategy := "country_match_cities",
                  searched_location := some (MatchInfo.country co) }
      else st
    | none => st
  else st

/-- Strategy 3 of the first definition (tools.py lines 493-508): a
`country_match` searches ALL its cities (no limit) and unions the
results. -/
def firstStep3 (env : Env) (q : TourQuery) (lr : FindResult) (st : CascadeState) :
    CascadeState :=
  if st.tours_found.isEmpty then
    match lr.country_match with
    | some co =>
      let allTours := unionCityTours env q co.cities
      if ¬ allTours.isEmpty then
        { st with tours_found := allTours,
                  search_strategy := "cities_in_country",
                  searched_location := some (MatchInfo.country co) }
      else st
    | none => st
  else st

/-- Fallback cascade of the FINAL `search_tours` definition (tools.py lines
648-738): strategies 1-5 in order. -/
def destinationCascade (env : Env) (q : TourQuery) (lr : FindResult) : CascadeState :=
  cascadeStep5 env q lr (cascadeStep4 env q lr (cascadeStep3 env q lr
    (cascadeStep2 "country_fallback_from_city" env q lr (cascadeStep1 env q lr {}))))

/-- Fallback cascade of the FIRST (shadowed) `search_tours` definition
(tools.py lines 462-519): exact match, city-to-country fallback (label
`country_fallback`), then the cities of a `country_match` (all of them),
then up to three similar cities. -/
def destinationCascadeFirst (env : Env) (q : TourQuery) (lr : FindResult) : CascadeState :=
  cascadeStep4 env q lr (firstStep3 env q lr
    (cascadeStep2 "country_fallback" env q lr (firstStep1 env q lr {})))

/-- Outcome of one fallback stage: the tours it yields, the strategy label,
and the location it settles on. -/
structure CascadeOutcome where
  tours : List Tour
  strategy : String
  searched : Option MatchInfo
deriving DecidableEq, Repr

/-- Stage 1 viewed as a partial outcome: the exact-match search, when it
succeeds with a positive count. -/
def stage1Result (env : Env) (q : TourQuery) (lr : FindResult) : Option CascadeOutcome :=
  match lr.exact_match with
  | some em =>
    let tr := search_tours_for_location (env.searchApi q (matchId em))
    if tr.success ∧ tr.count > 0 then
      some ⟨tr.tours, "exact_match_" ++ matchType em, some em⟩
    else none
  | none => none

/-- Stage 2 viewed as a partial outcome: the parent-country retry for an
exact city match with a nonzero parent id. -/
def stage2Result (label : String) (env : Env) (q : TourQuery) (lr : FindResult) :
    Option CascadeOutcome :=
  match lr.exact_match with
  | some (MatchInfo.city c) =>
    if c.country_id ≠ 0 then
      let tr := search_tours_for_location (env.searchApi q c.country_id)
      if tr.success ∧ tr.count > 0 then
        some ⟨tr.tours, label,
              (lr.all_countries.find? (fun co => co.id = c.country_id)).map
                MatchInfo.country⟩
      else none
    else none
  | _ => none

/-- Stage 3 (final definition) viewed as a partial outcome: all cities of
an exact country match, unioned. -/
def stage3Result (env : Env) (q : TourQuery) (lr : FindResult) : Option CascadeOutcome :=
  match lr.exact_match with
  | some (MatchInfo.country co) =>
    let allTours := unionCityTours env q co.cities
    if ¬ allTours.isEmpty then
      some ⟨allTours, "cities_in_country", some (MatchInfo.country co)⟩
    else none
  | _ => none

/-- Stage 4 viewed as a partial outcome: the first of at most three
similar-city candidates that yields tours. -/
def stage4Result (env : Env) (q : TourQuery) (lr : FindResult) : Option CascadeOutcome :=
  (firstCityWithTours env q (lr.city_matches.take 3)).map
    (fun p => ⟨p.2, "similar_city", some (MatchInfo.city p.1)⟩)

/-- Stage 5 (final definition) viewed as a partial outcome: the first five
cities of a partially-matched country, unioned. -/
def stage5Result (env : Env) (q : TourQuery) (lr : FindResult) : Option CascadeOutcome :=
  match lr.country_match with
  | some co =>
    let allTours := unionCityTours env q (co.cities.take 5)
    if ¬ allTours.isEmpty then
      some ⟨allTours, "country_match_cities", some (MatchInfo.country co)⟩
    else none
  | none => none

/-- The first stage of the final definition's cascade that yields tours,
in priority order. -/
def cascadeSpec (env : Env) (q : TourQuery) (lr : FindResult) : Option CascadeOutcome :=
  match stage1Result env q lr with
  | some o => some o
  | none =>
    match stage2Result "country_fallback_from_city" env q lr with
    | some o => some o
    | none =>
      match stage3Result env q lr with
      | some o => some o
      | none =>
        match stage4Result env q lr with
        | some o => some o
        | none => stage5Result env q lr

/-- Does any variant pair between the search variants and the given variant
list agree exactly? -/
def eqPairExists (svs vs : List String) : Bool :=
  (variantPairs svs vs).any (fun p => p.1 = p.2)

/-- Equality match of the search variants against one city's variants. -/
def cityEq (svs : List String) (ci : CityInfo) : Bool :=
  eqPairExists svs ci.variants

/-- Equality match of the search variants against one country's variants. -/
def countryEq (svs : List String) (ci : CountryInfo) : Bool :=
  eqPairExists svs ci.variants

/-- The last city of the list that equality-matches (the scan lets a later
equality match overwrite an earlier one). -/
def lastCityEq (svs : List String) : List CityInfo → Option CityInfo
  | [] => none
  | c :: rest =>
    match lastCityEq svs rest with
    | some c2 => some c2
    | none => if cityEq svs c then some c else none

/-- The `exact_match` contribution of processing one country: its cities
are scanned after the country itself, so a city equality match overrides a
country equality match of the same country. -/
def exactFromCountry (svs : List String) (co : Country) : Option MatchInfo :=
  let ci := mkCountryInfo co
  match lastCityEq svs ci.cities with
  | some c => some (MatchInfo.city c)
  | none => if countryEq svs ci then some (MatchInfo.country ci) else none

/-- The final `exact_match` of scanning the whole location list: the last
country (in list order) that produces one wins. -/
def lastExact (svs : List String) : List Country → Option MatchInfo
  | [] => none
  | co :: rest =>
    match lastExact svs rest with
    | some m => some m
    | none => exactFromCountry svs co

/-- Does any equality match (country-level or city-level) exist in the
location data for the given search variants? -/
def eqMatchExists (svs : List String) (locs : List Country) : Bool :=
  locs.any (fun co =>
    countryEq svs (mkCountryInfo co) || (mkCountryInfo co).cities.any (cityEq svs))

/-- All city infos of the location data whose variants equality-match the
search variants, in traversal order. -/
def eqCities (svs : List String) (locs : List Country) : List CityInfo :=
  locs.foldr (fun co acc => (mkCountryInfo co).cities.filter (cityEq svs) ++ acc) []

/-- A remote-API outcome that does not deliver a successful tours payload:
an exception, a non-200 status, or a body with `success` false. -/
def failedOutcome : ApiOutcome → Bool
  | ApiOutcome.exn _ => true
  | ApiOutcome.http s b => decide (¬ (s = 200 ∧ b.success))

/-- Concrete tour used by the witnesses and counterexamples. -/
def tourA : Tour := { price := some 100, days := some 5, tag := "A" }

/-- Concrete environment: one country `aaa` (id 1) with one city `bbb`
(id 2); only the search for city 2 succeeds, with one tour. -/
def envPartial : Env :=
  { locations := [⟨1, "aaa", [⟨2, "bbb"⟩]⟩],
    origin_locations := [],
    searchApi := fun _ i =>
      if i = 2 then ApiOutcome.http 200 ⟨true, [tourA]⟩ else ApiOutcome.exn "down",
    allApi := fun _ => ApiOutcome.exn "down" }

/-- Concrete environment with an empty location cache and an always-failing
tours API. -/
def envEmpty : Env :=
  { locations := [], origin_locations := [],
    searchApi := fun _ _ => ApiOutcome.exn "down",
    allApi := fun _ => ApiOutcome.exn "down" }

/-- Concrete location data: country `aland` (id 1) with cities `abc`
(id 2) and `abcd` (id 3). -/
def locsAland : List Country := [⟨1, "aland", [⟨2, "abc"⟩, ⟨3, "abcd"⟩]⟩]

/-- Concrete location data: country `france` (id 1) with city `x` (id 2),
followed by a country also named `x` (id 3). -/
def locsShadow : List Country := [⟨1, "france", [⟨2, "x"⟩]⟩, ⟨3, "x", []⟩]

/-- Concrete location data: country `france` (id 1) with city `paris`
(id 2), with no other equality match for `paris`. -/
def locsParis : List Country := [⟨1, "france", [⟨2, "paris"⟩]⟩]

/-- Concrete environment over `locsParis` whose tours API always fails. -/
def envParisFail : Env :=
  { locations := locsParis, origin_locations := [],
    searchApi := fun _ _ => ApiOutcome.exn "down",
    allApi := fun _ => ApiOutcome.exn "down" }

/-- Concrete environment: an exact city match (`bbb`, id 2, in country
`aaa`, id 1) whose own search yields nothing while the parent country
search succeeds. -/
def envParent : Env :=
  { locations := [⟨1, "aaa", [⟨2, "bbb"⟩]⟩],
    origin_locations := [],
    searchApi := fun _ i =>
      if i = 1 then ApiOutcome.http 200 ⟨true, [tourA]⟩ else ApiOutcome.exn "down",
    allApi := fun _ => ApiOutcome.exn "down" }


/-- Embedding of `_build_intelligent_suggestions` (tools.py lines 818-853),
used only by the final definition.  The `searched`/`original` parameters
are `Option` because Python would raise (and the caller's broad `except`
would fire) if they were `None` in the first branch; that branch is only
reached with both set, so the `none` cases here are unreachable. -/
def _build_intelligent_suggestions (env : Env) (q : TourQuery)
    (search_strategy : String) (searched original : Option MatchInfo)
    (lr : FindResult) : List String :=
  if search_strategy = "country_fallback_from_city" then
    match searched with
    | some country =>
      let originalName := match original with | some m => matchName m | none => ""
      let cities_with_tours :=
        ((matchCities country).take 8).foldl
          (fun acc city =>
            if city.name ≠ originalName then
              let r := search_tours_for_location (env.searchApi q city.id)
              if r.success ∧ r.count > 0 then acc ++ [city.name] else acc
            else acc)
          []
      cities_with_tours.take 5
    | none => []
  else if search_strategy = "cities_in_country" ∨ search_strategy = "country_match_cities" then
    match searched with
    | some country => ((matchCities country).take 5).map (·.name)
    | none => []
  else if search_strategy = "similar_city" then
    match searched with
    | some city =>
      match matchCountryName city with
      | some country_name =>
        if country_name ≠ "" then
          match lr.all_countries.find? (fun co => co.name = country_name) with
          | some co =>
            ((co.cities.take 4).filter (fun c => c.name ≠ matchName city)).map (·.name)
          | none => []
        else []
      | none => []
    | none => []
  else []

/-- Embedding of `_build_no_tours_suggestions` (tools.py lines 856-894). -/
def _build_no_tours_suggestions (lr : FindResult) (original_query : String) :
    List String :=
  let _ := original_query
  let suggestions : List String :=
    match lr.exact_match with
    | some (MatchInfo.city city) =>
      let country_name := city.country
      let s1 : List String :=
        if country_name ≠ "" then
          match lr.all_countries.find? (fun co => co.name = country_name) with
          | some co =>
            ((co.cities.take 5).filter (fun c => c.name ≠ city.name)).map (·.name)
          | none => []
        else []
      if s1.isEmpty ∧ country_name ≠ "" then [country_name] else s1
    | _ =>
      match lr.country_match with
      | some co => (co.cities.take 5).map (·.name)
      | none =>
        if ¬ lr.city_matches.isEmpty then
          let s := (lr.city_matches.take 4).map (·.name)
          (lr.city_matches.take 2).foldl
            (fun acc city =>
              if city.country ≠ "" ∧ city.country ∉ acc then acc ++ [city.country]
              else acc)
            s
        else []
  let suggestions :=
    if suggestions.isEmpty then
      ["Turkiya", "BAA", "Tailand", "Misr", "Gruziya", "Indoneziya"]
    else suggestions
  suggestions.take 6

/-- Embedding of `_build_search_message` (tools.py lines 897-919); the first
definition calls it without `original_location` (default `None`). -/
def _build_search_message (search_strategy : String) (searched : Option MatchInfo)
    (tour_count : Nat) (original_query : String) (original : Option MatchInfo) :
    String :=
  match searched with
  | none => "Found " ++ toString tour_count ++ " tours"
  | some loc =>
    let location_name := matchName loc
    if search_strategy = "exact_match_city" then
      "Found " ++ toString tour_count ++ " tours to " ++ location_name
    else if search_strategy = "exact_match_country" then
      "Found " ++ toString tour_count ++ " tours to " ++ location_name
    else if search_strategy = "country_fallback_from_city" then
      let original_name := match original with | some m => matchName m | none => original_query
      "No specific tours to " ++ original_name ++ ", but found " ++ toString tour_count ++
        " tours to " ++ location_name ++ ". Check the suggestions for specific cities."
    else if search_strategy = "cities_in_country" then
      "Found " ++ toString tour_count ++ " tours across various cities in " ++ location_name
    else if search_strategy = "country_match_cities" then
      "Found " ++ toString tour_count ++ " tours in " ++ location_name ++
        " (matched from your search)"
    else if search_strategy = "similar_city" then
      "Found " ++ toString tour_count ++ " tours to " ++ location_name ++
        " (similar to \x27" ++ original_query ++ "\x27)"
    else "Found " ++ toString tour_count ++ " tours"

/-- Return dict of either `search_tours` definition; keys absent from the
dict of a given branch are `none`. -/
structure SearchResult where
  status : String
  count : Nat
  tours : List Tour
  message : String
  search_strategy : Option String := none
  searched_location : Option String := none
  searched_location_type : Option String := none
  original_query : Option String := none
  searched_for : Option String := none
  suggestions : Option (List String) := none
  has_more : Option Bool := none
deriving DecidableEq, Repr

/-- Shared no-destination branch of both definitions (tools.py lines
584-612 and 787-815): a direct `GET /tours`, else the generic error dict;
an exception anywhere is converted by the broad `except` into the
`Search error:` dict. -/
def searchAllBranch (env : Env) (q : TourQuery) : SearchResult :=
  match env.allApi q with
  | ApiOutcome.exn m =>
    { status := "error", message := "Search error: " ++ m, tours := [], count := 0 }
  | ApiOutcome.http status body =>
    if status = 200 ∧ body.success then
      { status := "success", count := body.data.length, tours := body.data.take 10,
        message := "Found " ++ toString body.data.length ++ " tours available" }
    else
      { status := "error", message := "Failed to search tours", tours := [], count := 0 }

/-- Embedding of the FINAL (authoritative) `search_tours` definition
(tools.py lines 615-815). -/
def search_tours (env : Env) (origin_city destination_place departure_date : Option String)
    (budget_max duration_days : Option Int) (sort_by : String) : SearchResult :=
  let q := buildQuery env origin_city departure_date sort_by
  match truthyString destination_place with
  | some dest =>
    let lr := find_location_comprehensive env.locations dest
    let st := destinationCascade env q lr
    if ¬ st.tours_found.isEmpty then
      let filtered := applyFilters budget_max duration_days st.tours_found
      let suggestions :=
        _build_intelligent_suggestions env q st.search_strategy st.searched_location
          st.original_location lr
      { status := "success",
        count := filtered.length,
        tours := filtered.take 10,
        search_strategy := some st.search_strategy,
        searched_location := st.searched_location.map matchName,
        searched_location_type := st.searched_location.map matchType,
        original_query := some dest,
        suggestions := some suggestions,
        has_more := some (decide (10 < filtered.length)),
        message := _build_search_message st.search_strategy st.searched_location
          filtered.length dest st.original_location }
    else
      let suggestions := _build_no_tours_suggestions lr dest
      { status := "no_tours_found",
        count := 0,
        tours := [],
        searched_for := some dest,
        suggestions := some suggestions,
        message := "No tours found for \x27" ++ dest ++
          "\x27. Here are some alternatives: " ++
          String.intercalate ", " (suggestions.take 3) }
  | none => searchAllBranch env q

/-- Embedding of the FIRST (shadowed) `search_tours` definition
(tools.py lines 429-612). -/
def search_tours_first (env : Env)
    (origin_city destination_place departure_date : Option String)
    (budget_max duration_days : Option Int) (sort_by : String) : SearchResult :=
  let q := buildQuery env origin_city departure_date sort_by
  match truthyString destination_place with
  | some dest =>
    let lr := find_location_comprehensive env.locations dest
    let st := destinationCascadeFirst env q lr
    if ¬ st.tours_found.isEmpty then
      let filtered := applyFilters budget_max duration_days st.tours_found
      let suggestions :=
        if st.search_strategy = "country_fallback" then
          match st.searched_location with
          | some country => (citiesWithTours env q (matchCities country)).take 5
          | none => []
        else []
      { status := "success",
        count := filtered.length,
        tours := filtered.take 10,
        search_strategy := some st.search_strategy,
        searched_location := st.searched_location.map matchName,
        searched_location_type := st.searched_location.map matchType,
        suggestions := some suggestions,
        has_more := some (decide (10 < filtered.length)),
        message := _build_search_message st.search_strategy st.searched_location
          filtered.length dest none }
    else
      let suggestions : List String :=
        match lr.country_match with
        | some co => (co.cities.take 5).map (·.name)
        | none =>
          if ¬ lr.city_matches.isEmpty then (lr.city_matches.take 5).map (·.name)
          else ["Turkiya", "BAA", "Tailand", "Misr", "Gruziya"]
      { status := "no_tours_found",
        count := 0,
        tours := [],
        searched_for := some dest,
        suggestions := some suggestions,
        message := "No tours found for \x27" ++ dest ++
          "\x27. Try these destinations: " ++ String.intercalate ", " suggestions }
  | none => searchAllBranch env q

/-- One entry of a conversation context's message log (`main.py` lines
91-95 / `bot.py` lines 81-85). -/
structure StoredMessage where
  content : String
  type : String
  timestamp : String
deriving DecidableEq, Repr

/-- One conversation context (`main.py` lines 68-73 / `bot.py` lines
58-63); `preferences` is created empty and never written by any
operation. -/
structure ConvContext where
  thread_id : String
  messages : List StoredMessage
  preferences : List (String × String)
  created_at : String
deriving DecidableEq, Repr

/-- The module-level `conversation_states` / `conversation_contexts` dict,
generic over the key type (`str` in main.py, `int` in bot.py), modelled as
an association list with unique keys in insertion order. -/
abbrev ConvStore (κ : Type) := List (κ × ConvContext)

/-- Python `conversation_id in conversation_states` / dict indexing. -/
def storeLookup {κ : Type} [DecidableEq κ] (s : ConvStore κ) (k : κ) :
    Option ConvContext :=
  (s.find? (fun p => p.1 = k)).map (·.2)

/-- Embedding of `ConversationManager.get_or_create_thread_id` (`main.py`
lines 64-74 / `bot.py` lines 54-64).  `fresh` is the value of
`str(uuid.uuid4())` and `now` of `datetime.now().isoformat()` at this call;
both are inputs of the model. -/
def get_or_create_thread_id {κ : Type} [DecidableEq κ] (s : ConvStore κ) (k : κ)
    (fresh now : String) : ConvStore κ × String :=
  match storeLookup s k with
  | some c => (s, c.thread_id)
  | none =>
    (s ++ [(k, { thread_id := fresh, messages := [], preferences := [],
                 created_at := now })], fresh)

/-- Embedding of `ConversationManager.get_config` (`main.py` lines 76-84 /
`bot.py` lines 66-74): the returned config is determined by the thread id
it wraps. -/
def get_config {κ : Type} [DecidableEq κ] (s : ConvStore κ) (k : κ)
    (fresh now : String) : ConvStore κ × String :=
  get_or_create_thread_id s k fresh now

/-- Append one message record to a context's log (the in-place
`.append(...)` on the context's `messages` list). -/
def msgAppend (m : StoredMessage) (c : ConvContext) : ConvContext :=
  { c with messages := c.messages ++ [m] }

/-- Embedding of `ConversationManager.add_message` (`main.py` lines 86-95 /
`bot.py` lines 76-85): create the context if absent, then append the
message record to its log. -/
def add_message {κ : Type} [DecidableEq κ] (s : ConvStore κ) (k : κ)
    (fresh now : String) (m : StoredMessage) : ConvStore κ :=
  let s :=
    if (storeLookup s k).isNone then (get_or_create_thread_id s k fresh now).1 else s
  s.map (fun p => if p.1 = k then (p.1, msgAppend m p.2) else p)

/-- A hotel dict nested in a tour-details location
(`tools.py` lines 973-983). -/
structure HotelEntry where
  hotel_name : Option String := none
  stars : Option Nat := none
  price : Option Int := none
  currency : Option String := none
  nights : Option Nat := none
  image : Option String := none
  features : List String := []
  location_name : Option String := none
deriving DecidableEq, Repr

/-- One entry of a tour's `locations` list in the details payload. -/
structure TourLocationEntry where
  hotels : List HotelEntry := []
deriving DecidableEq, Repr

/-- Raw `data` object of a `GET /tours/view/{slug}` response; opaque JSON
values are modelled as strings or association lists. -/
structure TourData where
  id : Option Nat := none
  name : Option String := none
  description : Option String := none
  price : Option Int := none
  currency : Option String := none
  days : Option Int := none
  nights : Option Int := none
  from_date : Option String := none
  to_date : Option String := none
  is_hot : Bool := false
  images : List String := []
  locations : List TourLocationEntry := []
  organization : List (String × String) := []
  responsible_user : List (String × String) := []
  contact_phone : Option String := none
  features : List String := []
  facilities : List String := []
  schedules : List String := []
  meta_data : List (String × String) := []
deriving DecidableEq, Repr

/-- Outcome of the `GET /tours/view/{slug}` request (exception covers
network errors and unparseable bodies, both of which raise). -/
inductive DetailsOutcome
  | exn (msg : String)
  | http (status : Nat) (success : Bool) (data : TourData)
deriving DecidableEq, Repr

/-- The reshaped hotel record built by `get_tour_details`. -/
structure HotelInfo where
  name : Option String
  stars : Option Nat
  price : Option Int
  currency : String
  nights : Option Nat
  image : Option String
  features : List String
  location : Option String
deriving DecidableEq, Repr

/-- The reshaped success payload of `get_tour_details` (the `tour_info`
dict of tools.py lines 938-984, flattened). -/
structure TourDetailsPayload where
  id : Option Nat
  name : Option String
  description : Option String
  price : Option Int
  currency : String
  duration_days : Option Int
  duration_nights : Option Int
  date_from : Option String
  date_to : Option String
  is_hot : Bool
  images : List String
  hotels : List HotelInfo
  organization : List (String × String)
  responsible_person : List (String × String)
  contact_phone : Option String
  features : List String
  facilities : List String
  schedules : List String
  meta_data : List (String × String)
deriving DecidableEq, Repr

/-- Return dict of `get_tour_details`; `tour_details` is `none` in the
error dicts (which carry `{}`). -/
structure TourDetailsResult where
  status : String
  message : Option String := none
  tour_details : Option TourDetailsPayload := none
deriving DecidableEq, Repr

/-- Embedding of `get_tour_details` (tools.py lines 922-998). -/
def get_tour_details (o : DetailsOutcome) : TourDetailsResult :=
  match o with
  | DetailsOutcome.exn m =>
    { status := "error", message := some ("Error fetching tour details: " ++ m) }
  | DetailsOutcome.http status success data =>
    if status = 200 ∧ success then
      { status := "success",
        tour_details := some
          { id := data.id, name := data.name, description := data.description,
            price := data.price, currency := data.currency.getD "USD",
            duration_days := data.days, duration_nights := data.nights,
            date_from := data.from_date, date_to := data.to_date,
            is_hot := data.is_hot, images := data.images,
            hotels := data.locations.foldl
              (fun acc loc => acc ++ loc.hotels.map (fun h =>
                { name := h.hotel_name, stars := h.stars, price := h.price,
                  currency := h.currency.getD "USD", nights := h.nights,
                  image := h.image, features := h.features,
                  location := h.location_name }))
              [],
            organization := data.organization,
            responsible_person := data.responsible_user,
            contact_phone := data.contact_phone,
            features := data.features, facilities := data.facilities,
            schedules := data.schedules, meta_data := data.meta_data } }
    else
      { status := "error", message := some "Tour details not found" }

/-- A failed outcome of the details request. -/
def detailsFailed : DetailsOutcome → Bool
  | DetailsOutcome.exn _ => true
  | DetailsOutcome.http s success _ => decide (¬ (s = 200 ∧ success))

/-- Concrete stored message for the conversation-store witness. -/
def msgW : StoredMessage := { content := "hi", type := "HumanMessage", timestamp := "t1" }

/-! Helper lemmas. -/

theorem mem_dedupFold (xs : List String) :
    ∀ (acc : List String) (s : String),
      s ∈ xs.foldl (fun acc x => if x ∈ acc then acc else acc ++ [x]) acc ↔
        s ∈ acc ∨ s ∈ xs := by
  induction xs with
  | nil => intro acc s; simp
  | cons x xs ih =>
    intro acc s
    rw [List.foldl_cons, ih]
    by_cases hx : x ∈ acc
    · simp only [if_pos hx, List.mem_cons]
      constructor
      · rintro (h | h)
        · exact Or.inl h
        · exact Or.inr (Or.inr h)
      · rintro (h | h | h)
        · exact Or.inl h
        · exact Or.inl (h ▸ hx)
        · exact Or.inr h
    · simp only [if_neg hx, List.mem_append, List.mem_singleton, List.mem_cons]
      tauto

theorem nodup_dedupFold (xs : List String) :
    ∀ (acc : List String), acc.Nodup →
      (xs.foldl (fun acc x => if x ∈ acc then acc else acc ++ [x]) acc).Nodup := by
  induction xs with
  | nil => intro acc h; simpa using h
  | cons x xs ih =>
    intro acc h
    rw [List.foldl_cons]
    by_cases hx : x ∈ acc
    · rw [if_pos hx]; exact ih acc h
    · rw [if_neg hx]
      refine ih _ ?_
      refine List.Nodup.append h (List.nodup_singleton x) ?_
      intro a ha hb
      rw [List.mem_singleton] at hb
      exact hx (hb ▸ ha)

theorem length_dedupFold (xs : List String) :
    ∀ (acc : List String),
      (xs.foldl (fun acc x => if x ∈ acc then acc else acc ++ [x]) acc).length ≤
        acc.length + xs.length := by
  induction xs with
  | nil => intro acc; simp
  | cons x xs ih =>
    intro acc
    rw [List.foldl_cons]
    by_cases hx : x ∈ acc
    · rw [if_pos hx]
      calc _ ≤ acc.length + xs.length := ih acc
        _ ≤ acc.length + (x :: xs).length := by simp [Nat.add_le_add_left]
    · rw [if_neg hx]
      calc _ ≤ (acc ++ [x]).length + xs.length := ih _
        _ = acc.length + (x :: xs).length := by simp [Nat.add_comm, Nat.add_assoc, Nat.add_left_comm]

theorem mem_pySetList (xs : List String) (s : String) : s ∈ pySetList xs ↔ s ∈ xs := by
  rw [pySetList, mem_dedupFold]; simp

theorem nodup_pySetList (xs : List String) : (pySetList xs).Nodup :=
  nodup_dedupFold xs [] List.nodup_nil

theorem length_pySetList (xs : List String) : (pySetList xs).length ≤ xs.length := by
  have := length_dedupFold xs []
  simpa using this

theorem stfl_count_eq (o : ApiOutcome) :
    (search_tours_for_location o).count = (search_tours_for_location o).tours.length := by
  cases o with
  | exn m => rfl
  | http s b =>
    by_cases h : s = 200 ∧ b.success = true
    · simp [search_tours_for_location, h]
    · simp only [search_tours_for_location]
      rw [if_neg h]
      rfl

theorem stfl_fail (o : ApiOutcome) (h : failedOutcome o = true) :
    search_tours_for_location o = { success := false, tours := [], count := 0 } := by
  cases o with
  | exn m => rfl
  | http s b =>
    simp only [failedOutcome, decide_eq_true_eq] at h
    simp only [search_tours_for_location]
    rw [if_neg h]

theorem stfl_tours_ne_nil {o : ApiOutcome}
    (_h1 : (search_tours_for_location o).success = true)
    (h2 : 0 < (search_tours_for_location o).count) :
    (search_tours_for_location o).tours ≠ [] := by
  have hc := stfl_count_eq o
  intro hnil
  rw [hnil] at hc
  simp at hc
  rw [hc] at h2
  exact Nat.lt_irrefl 0 h2

theorem mem_applyBudgetFilter {bm : Option Int} {ts : List Tour} {t : Tour}
    (h : t ∈ applyBudgetFilter bm ts) : t ∈ ts := by
  cases bm with
  | none => exact h
  | some b =>
    simp only [applyBudgetFilter] at h
    by_cases hb : b ≠ 0
    · rw [if_pos hb] at h; exact List.mem_of_mem_filter h
    · rw [if_neg hb] at h; exact h

theorem mem_applyDurationFilter {dm : Option Int} {ts : List Tour} {t : Tour}
    (h : t ∈ applyDurationFilter dm ts) : t ∈ ts := by
  cases dm with
  | none => exact h
  | some d =>
    simp only [applyDurationFilter] at h
    by_cases hd : d ≠ 0
    · rw [if_pos hd] at h; exact List.mem_of_mem_filter h
    · rw [if_neg hd] at h; exact h

theorem price_of_mem_budgetFilter {b : Int} (hb : b ≠ 0) {ts : List Tour} {t : Tour}
    (h : t ∈ applyBudgetFilter (some b) ts) : ∃ p, t.price = some p ∧ p ≤ b := by
  simp only [applyBudgetFilter, if_pos hb] at h
  have := List.of_mem_filter h
  simp only [decide_eq_true_eq] at this
  obtain ⟨h1, h2⟩ := this
  obtain ⟨p, hp⟩ := Option.isSome_iff_exists.mp h1
  exact ⟨p, hp, by simpa [hp] using h2⟩

theorem days_of_mem_durationFilter {d : Int} (hd : d ≠ 0) {ts : List Tour} {t : Tour}
    (h : t ∈ applyDurationFilter (some d) ts) :
    ∃ k, t.days = some k ∧ (k - d).natAbs ≤ 2 := by
  simp only [applyDurationFilter, if_pos hd] at h
  have := List.of_mem_filter h
  simp only [decide_eq_true_eq] at this
  obtain ⟨h1, h2⟩ := this
  obtain ⟨k, hk⟩ := Option.isSome_iff_exists.mp h1
  exact ⟨k, hk, by simpa [hk] using h2⟩

/-! Claim theorems. -/

/-- C8: for every input string, `normalize_and_transliterate` lowercases
and trims it and returns between 1 and 3 distinct variants: the normalized
input always, plus the forward transliteration image when the table
contains the normalized input, plus the reverse (inverted-table) image when
the inverted table contains it, and nothing else. -/
theorem c8_normalize_and_transliterate_variants (name : String) :
    (normalize_and_transliterate name).Nodup ∧
    1 ≤ (normalize_and_transliterate name).length ∧
    (normalize_and_transliterate name).length ≤ 3 ∧
    (∀ s, s ∈ normalize_and_transliterate name ↔
      (s = pyNormalize name ∨
       mapLookup TRANSLITERATION_MAP (pyNormalize name) = some s ∨
       reverseLookup TRANSLITERATION_MAP (pyNormalize name) = some s)) := by
  have hmem : ∀ s, s ∈ normalize_and_transliterate name ↔
      (s = pyNormalize name ∨
       mapLookup TRANSLITERATION_MAP (pyNormalize name) = some s ∨
       reverseLookup TRANSLITERATION_MAP (pyNormalize name) = some s) := by
    intro s
    simp only [normalize_and_transliterate]
    cases h1 : mapLookup TRANSLITERATION_MAP (pyNormalize name) with
    | none =>
      cases h2 : reverseLookup TRANSLITERATION_MAP (pyNormalize name) with
      | none => rw [mem_pySetList]; simp
      | some r => rw [mem_pySetList]; simp [eq_comm]
    | some v =>
      cases h2 : reverseLookup TRANSLITERATION_MAP (pyNormalize name) with
      | none => rw [mem_pySetList]; simp [eq_comm]
      | some r => rw [mem_pySetList]; simp [eq_comm, or_assoc]
  refine ⟨nodup_pySetList _, ?_, ?_, hmem⟩
  · have : pyNormalize name ∈ normalize_and_transliterate name := (hmem _).mpr (Or.inl rfl)
    have hne := List.ne_nil_of_mem this
    exact List.length_pos.mpr hne
  · simp only [normalize_and_transliterate]
    cases h1 : mapLookup TRANSLITERATION_MAP (pyNormalize name) with
    | none =>
      cases h2 : reverseLookup TRANSLITERATION_MAP (pyNormalize name) with
      | none => exact le_trans (length_pySetList _) (by simp)
      | some r => exact le_trans (length_pySetList _) (by simp)
    | some v =>
      cases h2 : reverseLookup TRANSLITERATION_MAP (pyNormalize name) with
      | none => exact le_trans (length_pySetList _) (by simp)
      | some r => exact le_trans (length_pySetList _) (by simp)

/-- Witness for C8 at the concrete input `" Paris "`. -/
theorem c8_normalize_and_transliterate_variants_witness :
    (normalize_and_transliterate " Paris ").Nodup ∧
    1 ≤ (normalize_and_transliterate " Paris ").length ∧
    (normalize_and_transliterate " Paris ").length ≤ 3 ∧
    (∀ s, s ∈ normalize_and_transliterate " Paris " ↔
      (s = pyNormalize " Paris " ∨
       mapLookup TRANSLITERATION_MAP (pyNormalize " Paris ") = some s ∨
       reverseLookup TRANSLITERATION_MAP (pyNormalize " Paris ") = some s)) :=
  c8_normalize_and_transliterate_variants " Paris "

/-- C9: a `budget_max` of 0 (or a `duration_days` of 0) disables the
corresponding post-filter of the final `search_tours` entirely — the
result is identical to passing `None` — because each filter runs only when
its parameter is truthy. -/
theorem c9_zero_budget_or_duration_disables_filter (env : Env)
    (oc dp dd : Option String) (bm dm : Option Int) (sb : String) :
    search_tours env oc dp dd (some 0) dm sb = search_tours env oc dp dd none dm sb ∧
    search_tours env oc dp dd bm (some 0) sb = search_tours env oc dp dd bm none sb := by
  constructor
  · have h : applyFilters (some 0) dm = applyFilters none dm := by
      funext ts; simp [applyFilters, applyBudgetFilter]
    simp only [search_tours, h]
  · have h : applyFilters bm (some 0) = applyFilters bm none := by
      funext ts; simp [applyFilters, applyDurationFilter]
    simp only [search_tours, h]

/-- Witness for C9 at a concrete environment and destination. -/
theorem c9_zero_budget_or_duration_disables_filter_witness :
    search_tours envPartial none (some "aa") none (some 0) none "price_asc" =
      search_tours envPartial none (some "aa") none none none "price_asc" :=
  (c9_zero_budget_or_duration_disables_filter envPartial none (some "aa") none none none
    "price_asc").1

/-- C4 counterexample: with an empty location cache and a failing API, the
two successive `search_tours` definitions return different dictionaries for
the same input (different canned suggestion lists and messages), so they
are not behavioural duplicates. -/
theorem c4_counterexample :
    search_tours_first envEmpty none (some "zzz") none none none "price_asc" ≠
      search_tours envEmpty none (some "zzz") none none none "price_asc" := by
  decide

/-- C4 (amended): the two definitions agree whenever no (truthy)
destination is given — their parameter handling and no-destination branches
are identical — but with a destination they can differ; only the final
definition is observable at module level, so discarding the first preserves
the module's behaviour. -/
theorem c4_definitions_agree_without_destination (env : Env)
    (oc dp dd : Option String) (bm dm : Option Int) (sb : String)
    (h : truthyString dp = none) :
    search_tours_first env oc dp dd bm dm sb = search_tours env oc dp dd bm dm sb := by
  simp only [search_tours, search_tours_first, h]

/-- Witness for C4's amended theorem at a concrete input with no
destination. -/
theorem c4_definitions_agree_without_destination_witness :
    search_tours_first envEmpty none none none none none "price_asc" =
      search_tours envEmpty none none none none none "price_asc" :=
  c4_definitions_agree_without_destination envEmpty none none none none none "price_asc" rfl

/-- C1: in every call of the final `search_tours` with a (truthy)
destination, a positive `budget_max` guarantees that every returned tour
has a present price at most the ceiling, and a positive `duration_days`
guarantees that every returned tour has a present day-count within two
days of the request. -/
theorem c1_budget_and_duration_filters_sound (env : Env)
    (oc dp dd : Option String) (bm dm : Option Int) (sb dest : String) (b d : Int)
    (hdest : truthyString dp = some dest) :
    (0 < b → ∀ t ∈ (search_tours env oc dp dd (some b) dm sb).tours,
       ∃ p, t.price = some p ∧ p ≤ b) ∧
    (0 < d → ∀ t ∈ (search_tours env oc dp dd bm (some d) sb).tours,
       ∃ k, t.days = some k ∧ (k - d).natAbs ≤ 2) := by
  constructor
  · intro hb t ht
    simp only [search_tours, hdest] at ht
    by_cases hne : (destinationCascade env (buildQuery env oc dd sb)
        (find_location_comprehensive env.locations dest)).tours_found.isEmpty
    · rw [if_neg (by simpa using hne)] at ht
      simp at ht
    · rw [if_pos (by simpa using hne)] at ht
      simp only at ht
      have ht2 := List.mem_of_mem_take ht
      simp only [applyFilters] at ht2
      have ht3 := mem_applyDurationFilter ht2
      exact price_of_mem_budgetFilter (by exact Int.ne_of_gt hb) ht3
  · intro hd t ht
    simp only [search_tours, hdest] at ht
    by_cases hne : (destinationCascade env (buildQuery env oc dd sb)
        (find_location_comprehensive env.locations dest)).tours_found.isEmpty
    · rw [if_neg (by simpa using hne)] at ht
      simp at ht
    · rw [if_pos (by simpa using hne)] at ht
      simp only at ht
      have ht2 := List.mem_of_mem_take ht
      simp only [applyFilters] at ht2
      exact days_of_mem_durationFilter (by exact Int.ne_of_gt hd) ht2

/-- Witness for C1 at a concrete environment where a search yields one
tour of price 100 and 5 days, with ceiling 500 and requested duration 6. -/
theorem c1_budget_and_duration_filters_sound_witness :
    ((0:Int) < 500 ∧
      ∀ t ∈ (search_tours envPartial none (some "aa") none (some 500) none
          "price_asc").tours, ∃ p, t.price = some p ∧ p ≤ 500) ∧
    ((0:Int) < 6 ∧
      ∀ t ∈ (search_tours envPartial none (some "aa") none none (some 6)
          "price_asc").tours, ∃ k, t.days = some k ∧ (k - 6).natAbs ≤ 2) := by
  have h := c1_budget_and_duration_filters_sound envPartial none (some "aa") none none none
    "price_asc" "aa" 500 6 rfl
  exact ⟨⟨by decide, h.1 (by decide)⟩, ⟨by decide, h.2 (by decide)⟩⟩

/-- C10: in every success result of the final `search_tours` with a
destination, at most 10 tour records are returned, `count` is the full
post-filter total (which may exceed 10), and `has_more` holds exactly when
that total exceeds 10. -/
theorem c10_pagination_fields (env : Env) (oc dp dd : Option String)
    (bm dm : Option Int) (sb dest : String)
    (hdest : truthyString dp = some dest)
    (hne : (destinationCascade env (buildQuery env oc dd sb)
        (find_location_comprehensive env.locations dest)).tours_found ≠ []) :
    (search_tours env oc dp dd bm dm sb).status = "success" ∧
    (search_tours env oc dp dd bm dm sb).count =
      (applyFilters bm dm (destinationCascade env (buildQuery env oc dd sb)
        (find_location_comprehensive env.locations dest)).tours_found).length ∧
    (search_tours env oc dp dd bm dm sb).tours =
      (applyFilters bm dm (destinationCascade env (buildQuery env oc dd sb)
        (find_location_comprehensive env.locations dest)).tours_found).take 10 ∧
    (search_tours env oc dp dd bm dm sb).tours.length ≤ 10 ∧
    ((search_tours env oc dp dd bm dm sb).has_more = some true ↔
      10 < (search_tours env oc dp dd bm dm sb).count) := by
  have hred : search_tours env oc dp dd bm dm sb =
      (let q := buildQuery env oc dd sb
       let lr := find_location_comprehensive env.locations dest
       let st := destinationCascade env q lr
       let filtered := applyFilters bm dm st.tours_found
       { status := "success",
         count := filtered.length,
         tours := filtered.take 10,
         search_strategy := some st.search_strategy,
         searched_location := st.searched_location.map matchName,
         searched_location_type := st.searched_location.map matchType,
         original_query := some dest,
         suggestions := some (_build_intelligent_suggestions env q st.search_strategy
           st.searched_location st.original_location lr),
         has_more := some (decide (10 < filtered.length)),
         message := _build_search_message st.search_strategy st.searched_location
           filtered.length dest st.original_location } : SearchResult) := by
    simp only [search_tours, hdest]
    rw [if_pos (by simpa using hne)]
  rw [hred]
  refine ⟨rfl, rfl, rfl, ?_, ?_⟩
  · exact List.length_take_le 10 (applyFilters bm dm (destinationCascade env
      (buildQuery env oc dd sb)
      (find_location_comprehensive env.locations dest)).tours_found)
  · simp [decide_eq_true_eq]

/-- Witness for C10 at a concrete environment whose cascade yields one
tour. -/
theorem c10_pagination_fields_witness :
    (search_tours envPartial none (some "aa") none none none "price_asc").status =
      "success" ∧
    (search_tours envPartial none (some "aa") none none none "price_asc").tours.length ≤
      10 := by
  have h := c10_pagination_fields envPartial none (some "aa") none none none
    "price_asc" "aa" rfl (by decide)
  exact ⟨h.1, h.2.2.2.1⟩

/-! Cascade characterisation lemmas. -/

theorem isEmpty_ne_true {α : Type} {l : List α} (h : l ≠ []) : ¬ (l.isEmpty = true) := by
  cases l with
  | nil => exact absurd rfl h
  | cons a t => simp

theorem cascadeStep2_of_found (label : String) (env : Env) (q : TourQuery)
    (lr : FindResult) (st : CascadeState) (h : st.tours_found ≠ []) :
    cascadeStep2 label env q lr st = st := by
  unfold cascadeStep2
  rw [if_neg (isEmpty_ne_true h)]

theorem cascadeStep3_of_found (env : Env) (q : TourQuery) (lr : FindResult)
    (st : CascadeState) (h : st.tours_found ≠ []) :
    cascadeStep3 env q lr st = st := by
  unfold cascadeStep3
  rw [if_neg (isEmpty_ne_true h)]

theorem cascadeStep4_of_found (env : Env) (q : TourQuery) (lr : FindResult)
    (st : CascadeState) (h : st.tours_found ≠ []) :
    cascadeStep4 env q lr st = st := by
  unfold cascadeStep4
  rw [if_neg (isEmpty_ne_true h)]

theorem cascadeStep5_of_found (env : Env) (q : TourQuery) (lr : FindResult)
    (st : CascadeState) (h : st.tours_found ≠ []) :
    cascadeStep5 env q lr st = st := by
  unfold cascadeStep5
  rw [if_neg (isEmpty_ne_true h)]

theorem cascadeStep1_some (env : Env) (q : TourQuery) (lr : FindResult)
    (o : CascadeOutcome) (h : stage1Result env q lr = some o) :
    cascadeStep1 env q lr {} =
      ⟨o.tours, o.strategy, o.searched, lr.exact_match⟩ := by
  unfold cascadeStep1
  unfold stage1Result at h
  cases hE : lr.exact_match with
  | none => rw [hE] at h; exact absurd h (by simp)
  | some em =>
    rw [hE] at h
    dsimp only at h ⊢
    by_cases hc : (search_tours_for_location (env.searchApi q (matchId em))).success = true ∧
        (search_tours_for_location (env.searchApi q (matchId em))).count > 0
    · rw [if_pos hc] at h ⊢
      cases h
      rfl
    · rw [if_neg hc] at h
      exact absurd h (by simp)

theorem cascadeStep1_none (env : Env) (q : TourQuery) (lr : FindResult)
    (h : stage1Result env q lr = none) :
    cascadeStep1 env q lr {} = ⟨[], "none", none, lr.exact_match⟩ := by
  unfold cascadeStep1
  unfold stage1Result at h
  cases hE : lr.exact_match with
  | none => rfl
  | some em =>
    rw [hE] at h
    dsimp only at h ⊢
    by_cases hc : (search_tours_for_location (env.searchApi q (matchId em))).success = true ∧
        (search_tours_for_location (env.searchApi q (matchId em))).count > 0
    · rw [if_pos hc] at h; exact absurd h (by simp)
    · rw [if_neg hc]

theorem cascadeStep2_some (label : String) (env : Env) (q : TourQuery) (lr : FindResult)
    (orig : Option MatchInfo) (o : CascadeOutcome)
    (h : stage2Result label env q lr = some o) :
    cascadeStep2 label env q lr ⟨[], "none", none, orig⟩ =
      ⟨o.tours, o.strategy, o.searched, orig⟩ := by
  have hcond : (⟨[], "none", none, orig⟩ : CascadeState).tours_found.isEmpty = true := rfl
  unfold cascadeStep2
  unfold stage2Result at h
  rw [if_pos hcond]
  cases hE : lr.exact_match with
  | none => rw [hE] at h; exact absurd h (by simp)
  | some em =>
    rw [hE] at h
    cases em with
    | country c => exact absurd h (by simp)
    | city c =>
      dsimp only at h ⊢
      by_cases h0 : c.country_id ≠ 0
      · rw [if_pos h0] at h ⊢
        by_cases hc : (search_tours_for_location (env.searchApi q c.country_id)).success =
            true ∧ (search_tours_for_location (env.searchApi q c.country_id)).count > 0
        · rw [if_pos hc] at h ⊢
          cases h
          cases hF : lr.all_countries.find? (fun co => co.id = c.country_id) with
          | none => rfl
          | some co => rfl
        · rw [if_neg hc] at h
          exact absurd h (by simp)
      · rw [if_neg h0] at h
        exact absurd h (by simp)

theorem cascadeStep2_none (label : String) (env : Env) (q : TourQuery) (lr : FindResult)
    (orig : Option MatchInfo) (h : stage2Result label env q lr = none) :
    cascadeStep2 label env q lr ⟨[], "none", none, orig⟩ =
      ⟨[], "none", none, orig⟩ := by
  have hcond : (⟨[], "none", none, orig⟩ : CascadeState).tours_found.isEmpty = true := rfl
  unfold cascadeStep2
  unfold stage2Result at h
  rw [if_pos hcond]
  cases hE : lr.exact_match with
  | none => rfl
  | some em =>
    rw [hE] at h
    cases em with
    | country c => rfl
    | city c =>
      dsimp only at h ⊢
      by_cases h0 : c.country_id ≠ 0
      · rw [if_pos h0] at h ⊢
        by_cases hc : (search_tours_for_location (env.searchApi q c.country_id)).success =
            true ∧ (search_tours_for_location (env.searchApi q c.country_id)).count > 0
        · rw [if_pos hc] at h; exact absurd h (by simp)
        · rw [if_neg hc]
      · rw [if_neg h0]

theorem cascadeStep3_some (env : Env) (q : TourQuery) (lr : FindResult)
    (orig : Option MatchInfo) (o : CascadeOutcome)
    (h : stage3Result env q lr = some o) :
    cascadeStep3 env q lr ⟨[], "none", none, orig⟩ =
      ⟨o.tours, o.strategy, o.searched, orig⟩ := by
  have hcond : (⟨[], "none", none, orig⟩ : CascadeState).tours_found.isEmpty = true := rfl
  unfold cascadeStep3
  unfold stage3Result at h
  rw [if_pos hcond]
  cases hE : lr.exact_match with
  | none => rw [hE] at h; exact absurd h (by simp)
  | some em =>
    rw [hE] at h
    cases em with
    | city c => exact absurd h (by simp)
    | country c =>
      dsimp only at h ⊢
      by_cases hc : ¬ (unionCityTours env q c.cities).isEmpty = true
      · rw [if_pos hc] at h ⊢
        cases h
        rfl
      · rw [if_neg hc] at h
        exact absurd h (by simp)

theorem cascadeStep3_none (env : Env) (q : TourQuery) (lr : FindResult)
    (orig : Option MatchInfo) (h : stage3Result env q lr = none) :
    cascadeStep3 env q lr ⟨[], "none", none, orig⟩ = ⟨[], "none", none, orig⟩ := by
  have hcond : (⟨[], "none", none, orig⟩ : CascadeState).tours_found.isEmpty = true := rfl
  unfold cascadeStep3
  unfold stage3Result at h
  rw [if_pos hcond]
  cases hE : lr.exact_match with
  | none => rfl
  | some em =>
    rw [hE] at h
    cases em with
    | city c => rfl
    | country c =>
      dsimp only at h ⊢
      by_cases hc : ¬ (unionCityTours env q c.cities).isEmpty = true
      · rw [if_pos hc] at h; exact absurd h (by simp)
      · rw [if_neg hc]

theorem cascadeStep4_some (env : Env) (q : TourQuery) (lr : FindResult)
    (orig : Option MatchInfo) (o : CascadeOutcome)
    (h : stage4Result env q lr = some o) :
    cascadeStep4 env q lr ⟨[], "none", none, orig⟩ =
      ⟨o.tours, o.strategy, o.searched, orig⟩ := by
  have hcond : (⟨[], "none", none, orig⟩ : CascadeState).tours_found.isEmpty = true := rfl
  unfold cascadeStep4
  unfold stage4Result at h
  rw [if_pos hcond]
  cases hF : firstCityWithTours env q (lr.city_matches.take 3) with
  | none => rw [hF] at h; exact absurd h (by simp)
  | some p =>
    rw [hF] at h
    simp only [Option.map] at h
    cases h
    rfl

theorem cascadeStep4_none (env : Env) (q : TourQuery) (lr : FindResult)
    (orig : Option MatchInfo) (h : stage4Result env q lr = none) :
    cascadeStep4 env q lr ⟨[], "none", none, orig⟩ = ⟨[], "none", none, orig⟩ := by
  have hcond : (⟨[], "none", none, orig⟩ : CascadeState).tours_found.isEmpty = true := rfl
  unfold cascadeStep4
  unfold stage4Result at h
  rw [if_pos hcond]
  cases hF : firstCityWithTours env q (lr.city_matches.take 3) with
  | none => rfl
  | some p => rw [hF] at h; simp at h

theorem cascadeStep5_some (env : Env) (q : TourQuery) (lr : FindResult)
    (orig : Option MatchInfo) (o : CascadeOutcome)
    (h : stage5Result env q lr = some o) :
    cascadeStep5 env q lr ⟨[], "none", none, orig⟩ =
      ⟨o.tours, o.strategy, o.searched, orig⟩ := by
  have hcond : (⟨[], "none", none, orig⟩ : CascadeState).tours_found.isEmpty = true := rfl
  unfold cascadeStep5
  unfold stage5Result at h
  rw [if_pos hcond]
  cases hC : lr.country_match with
  | none => rw [hC] at h; exact absurd h (by simp)
  | some co =>
    rw [hC] at h
    dsimp only at h ⊢
    by_cases hc : ¬ (unionCityTours env q (co.cities.take 5)).isEmpty = true
    · rw [if_pos hc] at h ⊢
      cases h
      rfl
    · rw [if_neg hc] at h
      exact absurd h (by simp)

theorem cascadeStep5_none (env : Env) (q : TourQuery) (lr : FindResult)
    (orig : Option MatchInfo) (h : stage5Result env q lr = none) :
    cascadeStep5 env q lr ⟨[], "none", none, orig⟩ = ⟨[], "none", none, orig⟩ := by
  have hcond : (⟨[], "none", none, orig⟩ : CascadeState).tours_found.isEmpty = true := rfl
  unfold cascadeStep5
  unfold stage5Result at h
  rw [if_pos hcond]
  cases hC : lr.country_match with
  | none => rfl
  | some co =>
    rw [hC] at h
    dsimp only at h ⊢
    by_cases hc : ¬ (unionCityTours env q (co.cities.take 5)).isEmpty = true
    · rw [if_pos hc] at h; exact absurd h (by simp)
    · rw [if_neg hc]

theorem stage1_tours_ne {env : Env} {q : TourQuery} {lr : FindResult} {o : CascadeOutcome}
    (h : stage1Result env q lr = some o) : o.tours ≠ [] := by
  unfold stage1Result at h
  cases hE : lr.exact_match with
  | none => rw [hE] at h; exact absurd h (by simp)
  | some em =>
    rw [hE] at h
    dsimp only at h
    by_cases hc : (search_tours_for_location (env.searchApi q (matchId em))).success = true ∧
        (search_tours_for_location (env.searchApi q (matchId em))).count > 0
    · rw [if_pos hc] at h
      cases h
      exact stfl_tours_ne_nil hc.1 hc.2
    · rw [if_neg hc] at h
      exact absurd h (by simp)

theorem stage2_tours_ne {label : String} {env : Env} {q : TourQuery} {lr : FindResult}
    {o : CascadeOutcome} (h : stage2Result label env q lr = some o) : o.tours ≠ [] := by
  unfold stage2Result at h
  cases hE : lr.exact_match with
  | none => rw [hE] at h; exact absurd h (by simp)
  | some em =>
    rw [hE] at h
    cases em with
    | country c => exact absurd h (by simp)
    | city c =>
      dsimp only at h
      by_cases h0 : c.country_id ≠ 0
      · rw [if_pos h0] at h
        by_cases hc : (search_tours_for_location (env.searchApi q c.country_id)).success =
            true ∧ (search_tours_for_location (env.searchApi q c.country_id)).count > 0
        · rw [if_pos hc] at h
          cases h
          exact stfl_tours_ne_nil hc.1 hc.2
        · rw [if_neg hc] at h
          exact absurd h (by simp)
      · rw [if_neg h0] at h
        exact absurd h (by simp)

theorem stage3_tours_ne {env : Env} {q : TourQuery} {lr : FindResult} {o : CascadeOutcome}
    (h : stage3Result env q lr = some o) : o.tours ≠ [] := by
  unfold stage3Result at h
  cases hE : lr.exact_match with
  | none => rw [hE] at h; exact absurd h (by simp)
  | some em =>
    rw [hE] at h
    cases em with
    | city c => exact absurd h (by simp)
    | country c =>
      dsimp only at h
      by_cases hc : ¬ (unionCityTours env q c.cities).isEmpty = true
      · rw [if_pos hc] at h
        cases h
        intro hnil
        exact hc (by rw [show unionCityTours env q c.cities = [] from hnil]; rfl)
      · rw [if_neg hc] at h
        exact absurd h (by simp)

theorem fcwt_tours_ne {env : Env} {q : TourQuery} {cs : List CityInfo} {c : CityInfo}
    {ts : List Tour} (h : firstCityWithTours env q cs = some (c, ts)) : ts ≠ [] := by
  induction cs with
  | nil => simp [firstCityWithTours] at h
  | cons a rest ih =>
    unfold firstCityWithTours at h
    by_cases hc : (search_tours_for_location (env.searchApi q a.id)).success = true ∧
        (search_tours_for_location (env.searchApi q a.id)).count > 0
    · rw [if_pos hc] at h
      cases h
      exact stfl_tours_ne_nil hc.1 hc.2
    · rw [if_neg hc] at h
      exact ih h

theorem stage4_tours_ne {env : Env} {q : TourQuery} {lr : FindResult} {o : CascadeOutcome}
    (h : stage4Result env q lr = some o) : o.tours ≠ [] := by
  unfold stage4Result at h
  cases hF : firstCityWithTours env q (lr.city_matches.take 3) with
  | none => rw [hF] at h; exact absurd h (by simp)
  | some p =>
    rw [hF] at h
    simp only [Option.map] at h
    cases h
    exact fcwt_tours_ne (show firstCityWithTours env q (lr.city_matches.take 3) =
      some (p.1, p.2) from by rw [hF])

theorem stage5_tours_ne {env : Env} {q : TourQuery} {lr : FindResult} {o : CascadeOutcome}
    (h : stage5Result env q lr = some o) : o.tours ≠ [] := by
  unfold stage5Result at h
  cases hC : lr.country_match with
  | none => rw [hC] at h; exact absurd h (by simp)
  | some co =>
    rw [hC] at h
    dsimp only at h
    by_cases hc : ¬ (unionCityTours env q (co.cities.take 5)).isEmpty = true
    · rw [if_pos hc] at h
      cases h
      intro hnil
      exact hc (by rw [show unionCityTours env q (co.cities.take 5) = [] from hnil]; rfl)
    · rw [if_neg hc] at h
      exact absurd h (by simp)

theorem destinationCascade_char (env : Env) (q : TourQuery) (lr : FindResult) :
    destinationCascade env q lr =
      (match cascadeSpec env q lr with
       | some o => ⟨o.tours, o.strategy, o.searched, lr.exact_match⟩
       | none => ⟨[], "none", none, lr.exact_match⟩) := by
  unfold destinationCascade cascadeSpec
  cases h1 : stage1Result env q lr with
  | some o =>
    rw [cascadeStep1_some env q lr o h1]
    have hne : o.tours ≠ [] := stage1_tours_ne h1
    rw [cascadeStep2_of_found _ _ _ _ _ hne, cascadeStep3_of_found _ _ _ _ hne,
        cascadeStep4_of_found _ _ _ _ hne, cascadeStep5_of_found _ _ _ _ hne]
  | none =>
    rw [cascadeStep1_none env q lr h1]
    cases h2 : stage2Result "country_fallback_from_city" env q lr with
    | some o =>
      rw [cascadeStep2_some _ _ _ _ _ _ h2]
      have hne : o.tours ≠ [] := stage2_tours_ne h2
      rw [cascadeStep3_of_found _ _ _ _ hne, cascadeStep4_of_found _ _ _ _ hne,
          cascadeStep5_of_found _ _ _ _ hne]
    | none =>
      rw [cascadeStep2_none _ _ _ _ _ h2]
      cases h3 : stage3Result env q lr with
      | some o =>
        rw [cascadeStep3_some _ _ _ _ _ h3]
        have hne : o.tours ≠ [] := stage3_tours_ne h3
        rw [cascadeStep4_of_found _ _ _ _ hne, cascadeStep5_of_found _ _ _ _ hne]
      | none =>
        rw [cascadeStep3_none _ _ _ _ h3]
        cases h4 : stage4Result env q lr with
        | some o =>
          rw [cascadeStep4_some _ _ _ _ _ h4]
          have hne : o.tours ≠ [] := stage4_tours_ne h4
          rw [cascadeStep5_of_found _ _ _ _ hne]
        | none =>
          rw [cascadeStep4_none _ _ _ _ h4]
          cases h5 : stage5Result env q lr with
          | some o => rw [cascadeStep5_some _ _ _ _ _ h5]
          | none => rw [cascadeStep5_none _ _ _ _ h5]

theorem cascadeSpec_tours_ne {env : Env} {q : TourQuery} {lr : FindResult}
    {o : CascadeOutcome} (h : cascadeSpec env q lr = some o) : o.tours ≠ [] := by
  unfold cascadeSpec at h
  cases h1 : stage1Result env q lr with
  | some o1 =>
    rw [h1] at h
    have ho := Option.some.inj h
    exact ho ▸ stage1_tours_ne h1
  | none =>
    rw [h1] at h
    cases h2 : stage2Result "country_fallback_from_city" env q lr with
    | some o2 =>
      rw [h2] at h
      have ho := Option.some.inj h
      exact ho ▸ stage2_tours_ne h2
    | none =>
      rw [h2] at h
      cases h3 : stage3Result env q lr with
      | some o3 =>
        rw [h3] at h
        have ho := Option.some.inj h
        exact ho ▸ stage3_tours_ne h3
      | none =>
        rw [h3] at h
        cases h4 : stage4Result env q lr with
        | some o4 =>
          rw [h4] at h
          have ho := Option.some.inj h
          exact ho ▸ stage4_tours_ne h4
        | none =>
          rw [h4] at h
          exact stage5_tours_ne h

theorem unionCityTours_nil (env : Env) (q : TourQuery)
    (hS : ∀ i, failedOutcome (env.searchApi q i) = true) (cs : List CityInfo) :
    unionCityTours env q cs = [] := by
  unfold unionCityTours
  have key : ∀ (cs : List CityInfo) (acc : List Tour),
      cs.foldl (fun acc c =>
        let r := search_tours_for_location (env.searchApi q c.id)
        if r.success ∧ r.count > 0 then acc ++ r.tours else acc) acc = acc := by
    intro cs
    induction cs with
    | nil => intro acc; rfl
    | cons c rest ih =>
      intro acc
      rw [List.foldl_cons]
      dsimp only
      rw [stfl_fail (env.searchApi q c.id) (hS c.id), if_neg (by simp)]
      exact ih acc
  exact key cs []

theorem fcwt_none (env : Env) (q : TourQuery)
    (hS : ∀ i, failedOutcome (env.searchApi q i) = true) (cs : List CityInfo) :
    firstCityWithTours env q cs = none := by
  induction cs with
  | nil => rfl
  | cons c rest ih =>
    unfold firstCityWithTours
    dsimp only
    rw [stfl_fail (env.searchApi q c.id) (hS c.id), if_neg (by simp)]
    exact ih

theorem stage1_none_of_fail (env : Env) (q : TourQuery) (lr : FindResult)
    (hS : ∀ i, failedOutcome (env.searchApi q i) = true) :
    stage1Result env q lr = none := by
  unfold stage1Result
  cases lr.exact_match with
  | none => rfl
  | some em =>
    dsimp only
    rw [stfl_fail (env.searchApi q (matchId em)) (hS (matchId em)), if_neg (by simp)]

theorem stage2_none_of_fail (label : String) (env : Env) (q : TourQuery) (lr : FindResult)
    (hS : ∀ i, failedOutcome (env.searchApi q i) = true) :
    stage2Result label env q lr = none := by
  unfold stage2Result
  cases lr.exact_match with
  | none => rfl
  | some em =>
    cases em with
    | country c => rfl
    | city c =>
      dsimp only
      by_cases h0 : c.country_id ≠ 0
      · rw [if_pos h0, stfl_fail (env.searchApi q c.country_id) (hS c.country_id),
            if_neg (by simp)]
      · rw [if_neg h0]

theorem stage3_none_of_fail (env : Env) (q : TourQuery) (lr : FindResult)
    (hS : ∀ i, failedOutcome (env.searchApi q i) = true) :
    stage3Result env q lr = none := by
  unfold stage3Result
  cases lr.exact_match with
  | none => rfl
  | some em =>
    cases em with
    | city c => rfl
    | country c =>
      dsimp only
      rw [unionCityTours_nil env q hS c.cities, if_neg (by simp)]

theorem stage4_none_of_fail (env : Env) (q : TourQuery) (lr : FindResult)
    (hS : ∀ i, failedOutcome (env.searchApi q i) = true) :
    stage4Result env q lr = none := by
  unfold stage4Result
  rw [fcwt_none env q hS]
  rfl

theorem stage5_none_of_fail (env : Env) (q : TourQuery) (lr : FindResult)
    (hS : ∀ i, failedOutcome (env.searchApi q i) = true) :
    stage5Result env q lr = none := by
  unfold stage5Result
  cases lr.country_match with
  | none => rfl
  | some co =>
    dsimp only
    rw [unionCityTours_nil env q hS (co.cities.take 5), if_neg (by simp)]

theorem cascadeSpec_none_of_fail (env : Env) (q : TourQuery) (lr : FindResult)
    (hS : ∀ i, failedOutcome (env.searchApi q i) = true) :
    cascadeSpec env q lr = none := by
  unfold cascadeSpec
  rw [stage1_none_of_fail env q lr hS, stage2_none_of_fail _ env q lr hS,
      stage3_none_of_fail env q lr hS, stage4_none_of_fail env q lr hS,
      stage5_none_of_fail env q lr hS]

/-- C2 counterexample: in a concrete environment where the search text
only partially matches a country name (no exact match, no similar-city
candidates) and only a child-city search succeeds, the claim's stages
(1)-(4) all fail, yet the final `search_tours` still returns a SUCCESS
via the extra `country_match_cities` stage — the claim's enumeration says
this situation must end in a no-tours outcome. -/
theorem c2_counterexample :
    stage1Result envPartial (buildQuery envPartial none none "price_asc")
      (find_location_comprehensive envPartial.locations "aa") = none ∧
    stage2Result "country_fallback_from_city" envPartial
      (buildQuery envPartial none none "price_asc")
      (find_location_comprehensive envPartial.locations "aa") = none ∧
    stage3Result envPartial (buildQuery envPartial none none "price_asc")
      (find_location_comprehensive envPartial.locations "aa") = none ∧
    stage4Result envPartial (buildQuery envPartial none none "price_asc")
      (find_location_comprehensive envPartial.locations "aa") = none ∧
    (search_tours envPartial none (some "aa") none none none "price_asc").status =
      "success" ∧
    (search_tours envPartial none (some "aa") none none none "price_asc").search_strategy =
      some "country_match_cities" := by
  decide

/-- C2 (amended): with a destination, the final `search_tours` applies its
fallback strategies in exactly this priority order, taking the first that
yields a non-empty tour list: (1) exact location match; (2) exact CITY
match with zero results and a nonzero parent id retries the parent country;
(3) exact COUNTRY match with no direct tours unions all its child cities;
(4) up to three substring-matched candidate cities, first hit wins;
(5) a (possibly partial) `country_match` unions its first five child
cities; (6) otherwise the result is a no-tours outcome whose suggestion
list comes from `_build_no_tours_suggestions` and is the canned popular
list exactly when no match of any kind was found.  In particular, for an
exact city match with zero tours and nonzero parent id, the parent country
result is used next (before stages 3-5 and before giving up). -/
theorem c2_cascade_priority_amended (env : Env) (oc dp dd : Option String)
    (bm dm : Option Int) (sb dest : String) (hdest : truthyString dp = some dest) :
    (∀ o, cascadeSpec env (buildQuery env oc dd sb)
        (find_location_comprehensive env.locations dest) = some o →
      (destinationCascade env (buildQuery env oc dd sb)
          (find_location_comprehensive env.locations dest)).tours_found = o.tours ∧
      (destinationCascade env (buildQuery env oc dd sb)
          (find_location_comprehensive env.locations dest)).search_strategy = o.strategy ∧
      (destinationCascade env (buildQuery env oc dd sb)
          (find_location_comprehensive env.locations dest)).searched_location = o.searched ∧
      (search_tours env oc dp dd bm dm sb).status = "success" ∧
      (search_tours env oc dp dd bm dm sb).search_strategy = some o.strategy) ∧
    (cascadeSpec env (buildQuery env oc dd sb)
        (find_location_comprehensive env.locations dest) = none →
      (search_tours env oc dp dd bm dm sb).status = "no_tours_found" ∧
      (search_tours env oc dp dd bm dm sb).tours = [] ∧
      (search_tours env oc dp dd bm dm sb).count = 0 ∧
      (search_tours env oc dp dd bm dm sb).suggestions =
        some (_build_no_tours_suggestions
          (find_location_comprehensive env.locations dest) dest) ∧
      ((find_location_comprehensive env.locations dest).exact_match = none →
       (find_location_comprehensive env.locations dest).country_match = none →
       (find_location_comprehensive env.locations dest).city_matches = [] →
       (search_tours env oc dp dd bm dm sb).suggestions =
         some ["Turkiya", "BAA", "Tailand", "Misr", "Gruziya", "Indoneziya"])) ∧
    (stage1Result env (buildQuery env oc dd sb)
        (find_location_comprehensive env.locations dest) = none →
      ∀ o2, stage2Result "country_fallback_from_city" env (buildQuery env oc dd sb)
          (find_location_comprehensive env.locations dest) = some o2 →
        (destinationCascade env (buildQuery env oc dd sb)
            (find_location_comprehensive env.locations dest)).tours_found = o2.tours ∧
        (destinationCascade env (buildQuery env oc dd sb)
            (find_location_comprehensive env.locations dest)).search_strategy =
          o2.strategy) := by
  have hchar := destinationCascade_char env (buildQuery env oc dd sb)
    (find_location_comprehensive env.locations dest)
  refine ⟨?_, ?_, ?_⟩
  · intro o hspec
    rw [hspec] at hchar
    have hne : o.tours ≠ [] := cascadeSpec_tours_ne hspec
    have hred : (search_tours env oc dp dd bm dm sb).status = "success" ∧
        (search_tours env oc dp dd bm dm sb).search_strategy = some o.strategy := by
      simp only [search_tours, hdest]
      rw [hchar]
      rw [if_pos (by simp [isEmpty_ne_true hne])]
      exact ⟨rfl, rfl⟩
    rw [hchar]
    exact ⟨rfl, rfl, rfl, hred.1, hred.2⟩
  · intro hspec
    rw [hspec] at hchar
    have hred : search_tours env oc dp dd bm dm sb =
        { status := "no_tours_found", count := 0, tours := [],
          searched_for := some dest,
          suggestions := some (_build_no_tours_suggestions
            (find_location_comprehensive env.locations dest) dest),
          message := "No tours found for \x27" ++ dest ++
            "\x27. Here are some alternatives: " ++
            String.intercalate ", " ((_build_no_tours_suggestions
              (find_location_comprehensive env.locations dest) dest).take 3) } := by
      simp only [search_tours, hdest]
      rw [hchar]
      rw [if_neg (by simp)]
    rw [hred]
    refine ⟨rfl, rfl, rfl, rfl, ?_⟩
    intro h1 h2 h3
    have hs : _build_no_tours_suggestions
        (find_location_comprehensive env.locations dest) dest =
        ["Turkiya", "BAA", "Tailand", "Misr", "Gruziya", "Indoneziya"] := by
      unfold _build_no_tours_suggestions
      rw [h1, h2, h3]
      rfl
    rw [hs]
  · intro h1 o2 h2
    have hspec : cascadeSpec env (buildQuery env oc dd sb)
        (find_location_comprehensive env.locations dest) = some o2 := by
      unfold cascadeSpec
      rw [h1, h2]
    rw [hspec] at hchar
    rw [hchar]
    exact ⟨rfl, rfl⟩

/-- Witness for C2's amended theorem: an exact city match with zero tours
whose parent country search succeeds ends with the country-fallback
strategy and a success result. -/
theorem c2_cascade_priority_amended_witness :
    (destinationCascade envParent (buildQuery envParent none none "price_asc")
        (find_location_comprehensive envParent.locations "bbb")).search_strategy =
      "country_fallback_from_city" ∧
    (search_tours envParent none (some "bbb") none none none "price_asc").status =
      "success" := by
  have h := c2_cascade_priority_amended envParent none (some "bbb") none none none
    "price_asc" "bbb" rfl
  have h1 : stage1Result envParent (buildQuery envParent none none "price_asc")
      (find_location_comprehensive envParent.locations "bbb") = none := by decide
  have h2 : stage2Result "country_fallback_from_city" envParent
      (buildQuery envParent none none "price_asc")
      (find_location_comprehensive envParent.locations "bbb") =
      some ⟨[tourA], "country_fallback_from_city",
            some (MatchInfo.country (mkCountryInfo ⟨1, "aaa", [⟨2, "bbb"⟩]⟩))⟩ := by
    decide
  have hspec : cascadeSpec envParent (buildQuery envParent none none "price_asc")
      (find_location_comprehensive envParent.locations "bbb") =
      some ⟨[tourA], "country_fallback_from_city",
            some (MatchInfo.country (mkCountryInfo ⟨1, "aaa", [⟨2, "bbb"⟩]⟩))⟩ := by
    decide
  exact ⟨(h.2.2 h1 _ h2).2, (h.1 _ hspec).2.2.2.1⟩

/-- C6 counterexample: with a destination given and every remote call
failing, the final `search_tours` returns status `no_tours_found`, not the
`error` status the claim requires for every remote failure. -/
theorem c6_counterexample :
    (search_tours envEmpty none (some "zzz") none none none "price_asc").status =
      "no_tours_found" ∧
    (search_tours envEmpty none (some "zzz") none none none "price_asc").status ≠
      "error" := by
  decide

/-- C6 (amended): the tour-search operations never propagate an exception:
every failed remote outcome makes `search_tours_for_location` return
success `False` with empty tours and count 0 (and its `count` always
equals the length of its `tours`); when every remote call fails,
`search_tours` returns empty tours and count 0 with status `error` or —
when a destination is given — `no_tours_found`; and `get_tour_details`
returns status `error` on every failed outcome. -/
theorem c6_failure_shapes (env : Env) (oc dp dd : Option String) (bm dm : Option Int)
    (sb : String)
    (hS : ∀ q i, failedOutcome (env.searchApi q i) = true)
    (hA : ∀ q, failedOutcome (env.allApi q) = true) :
    (∀ o, failedOutcome o = true →
        search_tours_for_location o = { success := false, tours := [], count := 0 }) ∧
    (∀ o, (search_tours_for_location o).count =
        (search_tours_for_location o).tours.length) ∧
    ((search_tours env oc dp dd bm dm sb).tours = [] ∧
     (search_tours env oc dp dd bm dm sb).count = 0 ∧
     ((search_tours env oc dp dd bm dm sb).status = "error" ∨
      (search_tours env oc dp dd bm dm sb).status = "no_tours_found")) ∧
    (∀ o, detailsFailed o = true → (get_tour_details o).status = "error") := by
  refine ⟨stfl_fail, stfl_count_eq, ?_, ?_⟩
  · cases hdest : truthyString dp with
    | some dest =>
      have hchar := destinationCascade_char env (buildQuery env oc dd sb)
        (find_location_comprehensive env.locations dest)
      rw [cascadeSpec_none_of_fail env (buildQuery env oc dd sb)
        (find_location_comprehensive env.locations dest) (hS _)] at hchar
      have hred : (search_tours env oc dp dd bm dm sb).tours = [] ∧
          (search_tours env oc dp dd bm dm sb).count = 0 ∧
          (search_tours env oc dp dd bm dm sb).status = "no_tours_found" := by
        simp only [search_tours, hdest]
        rw [hchar]
        rw [if_neg (by simp)]
        exact ⟨rfl, rfl, rfl⟩
      exact ⟨hred.1, hred.2.1, Or.inr hred.2.2⟩
    | none =>
      simp only [search_tours, hdest]
      unfold searchAllBranch
      cases hAq : env.allApi (buildQuery env oc dd sb) with
      | exn m => exact ⟨rfl, rfl, Or.inl rfl⟩
      | http s b =>
        have hf := hA (buildQuery env oc dd sb)
        rw [hAq] at hf
        simp only [failedOutcome, decide_eq_true_eq] at hf
        dsimp only
        rw [if_neg hf]
        exact ⟨rfl, rfl, Or.inl rfl⟩
  · intro o ho
    cases o with
    | exn m => rfl
    | http s success d =>
      simp only [detailsFailed, decide_eq_true_eq] at ho
      unfold get_tour_details
      dsimp only
      rw [if_neg ho]

/-- Witness for C6's amended theorem at a concrete all-failing
environment. -/
theorem c6_failure_shapes_witness :
    (search_tours envEmpty none (some "zzz") none none none "price_asc").tours = [] ∧
    (search_tours envEmpty none (some "zzz") none none none "price_asc").count = 0 ∧
    ((search_tours envEmpty none (some "zzz") none none none "price_asc").status =
       "error" ∨
     (search_tours envEmpty none (some "zzz") none none none "price_asc").status =
       "no_tours_found") :=
  (c6_failure_shapes envEmpty none (some "zzz") none none none "price_asc"
    (fun _ _ => rfl) (fun _ => rfl)).2.2.1

/-! Characterisation of `exact_match` in `find_location_comprehensive`. -/

theorem countryPairStep_exact_of_ne (ci : CountryInfo) (st : FindState)
    (p : String × String) (hp : ¬ p.1 = p.2) :
    (countryPairStep ci st p).exact_match = st.exact_match := by
  unfold countryPairStep
  rw [if_neg hp]
  by_cases hc : (pyIn p.1 p.2 || pyIn p.2 p.1) = true
  · rw [if_pos hc]
    by_cases hn : st.country_match.isNone = true
    · rw [if_pos hn]
    · rw [if_neg hn]
  · rw [if_neg hc]

theorem cityPairStep_exact_of_ne (ci : CityInfo) (st : FindState)
    (p : String × String) (hp : ¬ p.1 = p.2) :
    (cityPairStep ci st p).exact_match = st.exact_match := by
  unfold cityPairStep
  rw [if_neg hp]
  by_cases hc : (pyIn p.1 p.2 || pyIn p.2 p.1) = true
  · rw [if_pos hc]
  · rw [if_neg hc]

theorem countryPairFold_exact (ci : CountryInfo) :
    ∀ (ps : List (String × String)) (st : FindState),
      (ps.foldl (countryPairStep ci) st).exact_match =
        if ps.any (fun p => p.1 = p.2) then some (MatchInfo.country ci)
        else st.exact_match := by
  intro ps
  induction ps with
  | nil => intro st; simp
  | cons p rest ih =>
    intro st
    rw [List.foldl_cons, ih]
    by_cases hp : p.1 = p.2
    · have h1 : (countryPairStep ci st p).exact_match = some (MatchInfo.country ci) := by
        unfold countryPairStep
        rw [if_pos hp]
      rw [h1]
      simp [List.any_cons, hp]
    · rw [countryPairStep_exact_of_ne ci st p hp, List.any_cons]
      have hd : decide (p.1 = p.2) = false := by simp [hp]
      rw [hd, Bool.false_or]

theorem cityPairFold_exact (ci : CityInfo) :
    ∀ (ps : List (String × String)) (st : FindState),
      (ps.foldl (cityPairStep ci) st).exact_match =
        if ps.any (fun p => p.1 = p.2) then some (MatchInfo.city ci)
        else st.exact_match := by
  intro ps
  induction ps with
  | nil => intro st; simp
  | cons p rest ih =>
    intro st
    rw [List.foldl_cons, ih]
    by_cases hp : p.1 = p.2
    · have h1 : (cityPairStep ci st p).exact_match = some (MatchInfo.city ci) := by
        unfold cityPairStep
        rw [if_pos hp]
      rw [h1]
      simp [List.any_cons, hp]
    · rw [cityPairStep_exact_of_ne ci st p hp, List.any_cons]
      have hd : decide (p.1 = p.2) = false := by simp [hp]
      rw [hd, Bool.false_or]

theorem cityListFold_exact (svs : List String) :
    ∀ (cs : List CityInfo) (st : FindState),
      ((cs.foldl (fun st ci =>
          (variantPairs svs ci.variants).foldl (cityPairStep ci) st) st).exact_match =
        match lastCityEq svs cs with
        | some c => some (MatchInfo.city c)
        | none => st.exact_match) := by
  intro cs
  induction cs with
  | nil => intro st; rfl
  | cons c rest ih =>
    intro st
    rw [List.foldl_cons, ih]
    cases hrest : lastCityEq svs rest with
    | some c2 =>
      have hcons : lastCityEq svs (c :: rest) = some c2 := by
        unfold lastCityEq
        rw [hrest]
      rw [hcons]
    | none =>
      have hcons : lastCityEq svs (c :: rest) =
          (if cityEq svs c = true then some c else none) := by
        unfold lastCityEq
        rw [hrest]
      rw [hcons, cityPairFold_exact]
      by_cases he : cityEq svs c = true
      · have he2 : (variantPairs svs c.variants).any (fun p => p.1 = p.2) = true := he
        rw [if_pos he2, if_pos he]
      · have he2 : ¬ (variantPairs svs c.variants).any (fun p => p.1 = p.2) = true := he
        rw [if_neg he2, if_neg he]

theorem processCountry_exact (svs : List String) (co : Country) (st : FindState) :
    (processCountry svs st co).exact_match =
      match exactFromCountry svs co with
      | some m => some m
      | none => st.exact_match := by
  unfold processCountry exactFromCountry
  dsimp only
  rw [cityListFold_exact]
  cases lastCityEq svs (mkCountryInfo co).cities with
  | some c => rfl
  | none =>
    rw [countryPairFold_exact]
    by_cases he : countryEq svs (mkCountryInfo co) = true
    · have he2 : (variantPairs svs (mkCountryInfo co).variants).any
          (fun p => p.1 = p.2) = true := he
      rw [if_pos he2, if_pos he]
    · have he2 : ¬ (variantPairs svs (mkCountryInfo co).variants).any
          (fun p => p.1 = p.2) = true := he
      rw [if_neg he2, if_neg he]

theorem locationsFold_exact (svs : List String) :
    ∀ (locs : List Country) (st : FindState),
      ((locs.foldl (processCountry svs) st).exact_match =
        match lastExact svs locs with
        | some m => some m
        | none => st.exact_match) := by
  intro locs
  induction locs with
  | nil => intro st; rfl
  | cons co rest ih =>
    intro st
    rw [List.foldl_cons, ih]
    cases hrest : lastExact svs rest with
    | some m =>
      have hcons : lastExact svs (co :: rest) = some m := by
        unfold lastExact
        rw [hrest]
      rw [hcons]
    | none =>
      have hcons : lastExact svs (co :: rest) = exactFromCountry svs co := by
        unfold lastExact
        rw [hrest]
      rw [hcons, processCountry_exact]

theorem find_location_exact_char (locs : List Country) (name : String) (h : locs ≠ []) :
    (find_location_comprehensive locs name).exact_match =
      lastExact (normalize_and_transliterate name) locs := by
  unfold find_location_comprehensive
  rw [if_neg (isEmpty_ne_true h)]
  dsimp only
  rw [locationsFold_exact]
  cases lastExact (normalize_and_transliterate name) locs with
  | some m => rfl
  | none => rfl

theorem lastCityEq_isSome (svs : List String) :
    ∀ cs : List CityInfo, (lastCityEq svs cs).isSome = cs.any (cityEq svs) := by
  intro cs
  induction cs with
  | nil => rfl
  | cons c rest ih =>
    rw [List.any_cons]
    cases hrest : lastCityEq svs rest with
    | some c2 =>
      have hcons : lastCityEq svs (c :: rest) = some c2 := by
        unfold lastCityEq
        rw [hrest]
      rw [hcons, ← ih, hrest]
      simp
    | none =>
      have hcons : lastCityEq svs (c :: rest) =
          (if cityEq svs c = true then some c else none) := by
        unfold lastCityEq
        rw [hrest]
      rw [hcons, ← ih, hrest]
      by_cases he : cityEq svs c = true
      · rw [if_pos he, he]
        simp
      · have he2 : cityEq svs c = false := by
          cases hcc : cityEq svs c with
          | false => rfl
          | true => exact absurd hcc he
        rw [if_neg he, he2]
        simp

theorem exactFromCountry_isSome (svs : List String) (co : Country) :
    (exactFromCountry svs co).isSome =
      (countryEq svs (mkCountryInfo co) ||
        (mkCountryInfo co).cities.any (cityEq svs)) := by
  unfold exactFromCountry
  dsimp only
  have hl := lastCityEq_isSome svs (mkCountryInfo co).cities
  cases hlc : lastCityEq svs (mkCountryInfo co).cities with
  | some c =>
    rw [hlc] at hl
    rw [← hl]
    simp
  | none =>
    rw [hlc] at hl
    rw [← hl]
    by_cases he : countryEq svs (mkCountryInfo co) = true
    · rw [if_pos he, he]
      simp
    · rw [if_neg he]
      have he2 : countryEq svs (mkCountryInfo co) = false := by
        cases hcc : countryEq svs (mkCountryInfo co)
        · rfl
        · exact absurd hcc he
      rw [he2]
      simp

theorem lastExact_isSome (svs : List String) :
    ∀ locs : List Country, (lastExact svs locs).isSome = eqMatchExists svs locs := by
  intro locs
  induction locs with
  | nil => rfl
  | cons co rest ih =>
    have hexp : eqMatchExists svs (co :: rest) =
        ((countryEq svs (mkCountryInfo co) ||
          (mkCountryInfo co).cities.any (cityEq svs)) || eqMatchExists svs rest) := by
      unfold eqMatchExists
      rw [List.any_cons]
    rw [hexp]
    cases hrest : lastExact svs rest with
    | some m =>
      have hcons : lastExact svs (co :: rest) = some m := by
        unfold lastExact
        rw [hrest]
      rw [hcons, ← ih, hrest]
      simp
    | none =>
      have hcons : lastExact svs (co :: rest) = exactFromCountry svs co := by
        unfold lastExact
        rw [hrest]
      rw [hcons, ← ih, hrest, exactFromCountry_isSome]
      simp

/-- C3 counterexample: for the concrete data `locsAland` and search text
`abc`, an equality match exists (`exact_match` is the city `abc`), yet the
containment-only candidate `abcd` is still reported in `city_matches` —
the claim says containment candidates appear only when no equality match
was found. -/
theorem c3_counterexample :
    (find_location_comprehensive locsAland "abc").exact_match =
      some (MatchInfo.city
        (mkCityInfo ⟨1, "aland", [⟨2, "abc"⟩, ⟨3, "abcd"⟩]⟩ ⟨2, "abc"⟩)) ∧
    (mkCityInfo ⟨1, "aland", [⟨2, "abc"⟩, ⟨3, "abcd"⟩]⟩ ⟨3, "abcd"⟩) ∈
      (find_location_comprehensive locsAland "abc").city_matches ∧
    cityEq (normalize_and_transliterate "abc")
      (mkCityInfo ⟨1, "aland", [⟨2, "abc"⟩, ⟨3, "abcd"⟩]⟩ ⟨3, "abcd"⟩) = false := by
  decide

/-- C3 (amended): equality determines `exact_match` — it is non-`None`
exactly when some location variant equals a search variant (per variant
pair, containment is only tested when the pair is unequal) — but
substring-containment candidates accumulate into `city_matches` even when
an equality match exists elsewhere. -/
theorem c3_equality_vs_containment (locs : List Country) (name : String) :
    ((find_location_comprehensive locs name).exact_match.isSome =
        eqMatchExists (normalize_and_transliterate name) locs) ∧
    (∃ (locs2 : List Country) (name2 : String) (ci : CityInfo),
      (find_location_comprehensive locs2 name2).exact_match.isSome = true ∧
      ci ∈ (find_location_comprehensive locs2 name2).city_matches ∧
      cityEq (normalize_and_transliterate name2) ci = false) := by
  constructor
  · cases locs with
    | nil => rfl
    | cons co rest =>
      rw [find_location_exact_char (co :: rest) name (by simp)]
      exact lastExact_isSome _ _
  · exact ⟨locsAland, "abc",
      mkCityInfo ⟨1, "aland", [⟨2, "abc"⟩, ⟨3, "abcd"⟩]⟩ ⟨3, "abcd"⟩,
      by decide, by decide, by decide⟩

/-- Witness for C3's amended theorem at concrete data. -/
theorem c3_equality_vs_containment_witness :
    (find_location_comprehensive locsAland "abc").exact_match.isSome =
      eqMatchExists (normalize_and_transliterate "abc") locsAland :=
  (c3_equality_vs_containment locsAland "abc").1

theorem any_false_of_filter_nil {α : Type} (p : α → Bool) :
    ∀ l : List α, l.filter p = [] → l.any p = false := by
  intro l
  induction l with
  | nil => intro _; rfl
  | cons a t ih =>
    intro h
    rw [List.filter_cons] at h
    by_cases hp : p a = true
    · rw [if_pos hp] at h
      exact absurd h (by simp)
    · rw [if_neg hp] at h
      rw [List.any_cons, ih h]
      have hp2 : p a = false := by
        cases hq : p a
        · rfl
        · exact absurd hq hp
      rw [hp2]
      rfl

theorem lastCityEq_none_of_filter_nil (svs : List String) (cs : List CityInfo)
    (h : cs.filter (cityEq svs) = []) : lastCityEq svs cs = none := by
  have h1 := lastCityEq_isSome svs cs
  rw [any_false_of_filter_nil _ cs h] at h1
  cases hl : lastCityEq svs cs with
  | none => rfl
  | some c => rw [hl] at h1; exact absurd h1 (by simp)

theorem lastCityEq_of_filter_single (svs : List String) :
    ∀ (cs : List CityInfo) (c : CityInfo), cs.filter (cityEq svs) = [c] →
      lastCityEq svs cs = some c := by
  intro cs
  induction cs with
  | nil => intro c h; exact absurd h (by simp)
  | cons a t ih =>
    intro c h
    rw [List.filter_cons] at h
    unfold lastCityEq
    by_cases hp : cityEq svs a = true
    · rw [if_pos hp] at h
      injection h with h1 h2
      rw [lastCityEq_none_of_filter_nil svs t h2]
      rw [if_pos hp, h1]
    · rw [if_neg hp] at h
      rw [ih c h]

theorem exactFromCountry_none (svs : List String) (co : Country)
    (hf : (mkCountryInfo co).cities.filter (cityEq svs) = [])
    (hc : countryEq svs (mkCountryInfo co) = false) :
    exactFromCountry svs co = none := by
  unfold exactFromCountry
  dsimp only
  rw [lastCityEq_none_of_filter_nil svs _ hf]
  rw [if_neg (by simp [hc])]

theorem lastExact_none (svs : List String) :
    ∀ locs : List Country,
      eqCities svs locs = [] →
      (∀ co ∈ locs, countryEq svs (mkCountryInfo co) = false) →
      lastExact svs locs = none := by
  intro locs
  induction locs with
  | nil => intro _ _; rfl
  | cons co rest ih =>
    intro h1 h2
    unfold eqCities at h1
    rw [List.foldr_cons] at h1
    have hsplit := List.append_eq_nil.mp h1
    unfold lastExact
    rw [ih hsplit.2 (fun x hx => h2 x (List.mem_cons_of_mem co hx))]
    exact exactFromCountry_none svs co hsplit.1 (h2 co (List.mem_cons_self co rest))

theorem lastExact_unique (svs : List String) :
    ∀ (locs : List Country) (c : CityInfo),
      eqCities svs locs = [c] →
      (∀ co ∈ locs, countryEq svs (mkCountryInfo co) = false) →
      lastExact svs locs = some (MatchInfo.city c) := by
  intro locs
  induction locs with
  | nil => intro c h _; exact absurd h (by simp [eqCities])
  | cons co rest ih =>
    intro c h1 h2
    unfold eqCities at h1
    rw [List.foldr_cons] at h1
    unfold lastExact
    cases hf : (mkCountryInfo co).cities.filter (cityEq svs) with
    | nil =>
      rw [hf, List.nil_append] at h1
      rw [ih c h1 (fun x hx => h2 x (List.mem_cons_of_mem co hx))]
    | cons x xt =>
      rw [hf, List.cons_append] at h1
      injection h1 with hx ht
      have hnil := List.append_eq_nil.mp ht
      rw [lastExact_none svs rest hnil.2 (fun y hy => h2 y (List.mem_cons_of_mem co hy))]
      have hfc : (mkCountryInfo co).cities.filter (cityEq svs) = [c] := by
        rw [hf, hx, hnil.1]
      unfold exactFromCountry
      dsimp only
      rw [lastCityEq_of_filter_single svs _ c hfc]

/-- C5 counterexample: in `locsShadow` the search text `x` equality-matches
exactly one city (id 2), but a country named `x` appears later in the scan
and overwrites `exact_match`, so the result is the country (id 3), not the
city's id. -/
theorem c5_counterexample :
    eqCities (normalize_and_transliterate "x") locsShadow =
      [mkCityInfo ⟨1, "france", [⟨2, "x"⟩]⟩ ⟨2, "x"⟩] ∧
    (find_location_comprehensive locsShadow "x").exact_match =
      some (MatchInfo.country (mkCountryInfo ⟨3, "x", []⟩)) ∧
    (find_location_comprehensive locsShadow "x").exact_match ≠
      some (MatchInfo.city (mkCityInfo ⟨1, "france", [⟨2, "x"⟩]⟩ ⟨2, "x"⟩)) := by
  decide

/-- C5 (amended): if the normalised/transliterated variants of the input
equality-match exactly one city in the cached data and equality-match no
country, then `find_location_comprehensive` returns that city (hence its
numeric id) as `exact_match`; the function is a pure function of the
cached data and the input, hence deterministic. -/
theorem c5_unique_city_resolution (locs : List Country) (name : String) (c : CityInfo)
    (h1 : eqCities (normalize_and_transliterate name) locs = [c])
    (h2 : ∀ co ∈ locs,
      countryEq (normalize_and_transliterate name) (mkCountryInfo co) = false) :
    (find_location_comprehensive locs name).exact_match =
      some (MatchInfo.city c) ∧
    (find_location_comprehensive locs name).exact_match.map matchId = some c.id ∧
    find_location_comprehensive locs name = find_location_comprehensive locs name := by
  have hne : locs ≠ [] := by
    intro h
    rw [h] at h1
    exact absurd h1 (by simp [eqCities])
  have hex := find_location_exact_char locs name hne
  rw [hex, lastExact_unique _ locs c h1 h2]
  exact ⟨rfl, rfl, rfl⟩

/-- Witness for C5's amended theorem: `paris` resolves to the unique city
id 2 in `locsParis`. -/
theorem c5_unique_city_resolution_witness :
    (find_location_comprehensive locsParis "paris").exact_match =
      some (MatchInfo.city (mkCityInfo ⟨1, "france", [⟨2, "paris"⟩]⟩ ⟨2, "paris"⟩)) :=
  (c5_unique_city_resolution locsParis "paris"
    (mkCityInfo ⟨1, "france", [⟨2, "paris"⟩]⟩ ⟨2, "paris"⟩)
    (by decide) (by decide)).1

/-! Conversation-store lemmas. -/

theorem storeLookup_append_single {κ : Type} [DecidableEq κ] :
    ∀ (s : ConvStore κ) (k k' : κ) (c : ConvContext),
      storeLookup (s ++ [(k, c)]) k' =
        match storeLookup s k' with
        | some c2 => some c2
        | none => if k' = k then some c else none := by
  intro s
  induction s with
  | nil =>
    intro k k' c
    by_cases h : k' = k
    · simp [storeLookup, List.find?, h]
    · simp [storeLookup, List.find?, h, Ne.symm h]
  | cons p s ih =>
    intro k k' c
    by_cases hp : p.1 = k'
    · simp [storeLookup, List.find?, hp]
    · have hl : storeLookup ((p :: s) ++ [(k, c)]) k' = storeLookup (s ++ [(k, c)]) k' := by
        simp [storeLookup, List.find?, hp]
      have hr : storeLookup (p :: s) k' = storeLookup s k' := by
        simp [storeLookup, List.find?, hp]
      rw [hl, hr, ih]

theorem storeLookup_cons_hit {κ : Type} [DecidableEq κ] (p : κ × ConvContext)
    (s : ConvStore κ) (k : κ) (h : p.1 = k) : storeLookup (p :: s) k = some p.2 := by
  simp [storeLookup, List.find?, h]

theorem storeLookup_cons_miss {κ : Type} [DecidableEq κ] (p : κ × ConvContext)
    (s : ConvStore κ) (k : κ) (h : ¬ p.1 = k) :
    storeLookup (p :: s) k = storeLookup s k := by
  simp [storeLookup, List.find?, h]

theorem storeLookup_none_iff {κ : Type} [DecidableEq κ] :
    ∀ (s : ConvStore κ) (k : κ), storeLookup s k = none ↔ k ∉ s.map Prod.fst := by
  intro s
  induction s with
  | nil => intro k; simp [storeLookup]
  | cons p s ih =>
    intro k
    by_cases hp : p.1 = k
    · rw [storeLookup_cons_hit p s k hp]
      simp [hp]
    · rw [storeLookup_cons_miss p s k hp, ih]
      simp only [List.map_cons, List.mem_cons]
      constructor
      · intro h hmem
        rcases hmem with h1 | h2
        · exact hp h1.symm
        · exact h h2
      · intro h h2
        exact h (Or.inr h2)

theorem storeLookup_map_update {κ : Type} [DecidableEq κ] (f : ConvContext → ConvContext) :
    ∀ (s : ConvStore κ) (k k' : κ),
      storeLookup (s.map (fun p => if p.1 = k then (p.1, f p.2) else p)) k' =
        if k' = k then (storeLookup s k').map f else storeLookup s k' := by
  intro s
  induction s with
  | nil =>
    intro k k'
    by_cases h : k' = k
    · simp [storeLookup, h]
    · simp [storeLookup, h]
  | cons p s ih =>
    intro k k'
    rw [List.map_cons]
    by_cases hpk : p.1 = k
    · rw [if_pos hpk]
      by_cases hk : k' = k
      · have hpk' : p.1 = k' := hpk.trans hk.symm
        rw [storeLookup_cons_hit (p.1, f p.2)
              (s.map (fun p => if p.1 = k then (p.1, f p.2) else p)) k' hpk',
            storeLookup_cons_hit p s k' hpk', if_pos hk]
        rfl
      · have hpk' : ¬ p.1 = k' := fun h => hk (h.symm.trans hpk)
        rw [storeLookup_cons_miss (p.1, f p.2)
              (s.map (fun p => if p.1 = k then (p.1, f p.2) else p)) k' hpk',
            storeLookup_cons_miss p s k' hpk', ih]
    · rw [if_neg hpk]
      by_cases hpk' : p.1 = k'
      · have hk : ¬ k' = k := fun h => hpk (hpk'.trans h)
        rw [storeLookup_cons_hit p
              (s.map (fun p => if p.1 = k then (p.1, f p.2) else p)) k' hpk',
            storeLookup_cons_hit p s k' hpk', if_neg hk]
      · rw [storeLookup_cons_miss p
              (s.map (fun p => if p.1 = k then (p.1, f p.2) else p)) k' hpk',
            storeLookup_cons_miss p s k' hpk', ih]

theorem mapUpdate_keys {κ : Type} [DecidableEq κ] (f : ConvContext → ConvContext)
    (s : ConvStore κ) (k : κ) :
    (s.map (fun p => if p.1 = k then (p.1, f p.2) else p)).map Prod.fst =
      s.map Prod.fst := by
  induction s with
  | nil => rfl
  | cons p s ih =>
    simp only [List.map_cons]
    rw [ih]
    congr 1
    by_cases hp : p.1 = k
    · rw [if_pos hp]
    · rw [if_neg hp]

/-- C7: the conversation-context store satisfies its invariants under every
operation: keys stay unique (each conversation id maps to at most one
context); a missing context is created exactly once with the freshly
generated thread id; every operation preserves existing contexts' thread
ids and never removes or replaces a context (`add_message` only appends to
the message log), so the store only grows. -/
theorem c7_conversation_store_invariants {κ : Type} [DecidableEq κ] (s : ConvStore κ)
    (k : κ) (fresh now : String) (m : StoredMessage)
    (hnodup : (s.map Prod.fst).Nodup) :
    ((((get_or_create_thread_id s k fresh now).1).map Prod.fst).Nodup ∧
     (∀ k' c, storeLookup s k' = some c →
        storeLookup (get_or_create_thread_id s k fresh now).1 k' = some c) ∧
     (storeLookup s k = none →
        storeLookup (get_or_create_thread_id s k fresh now).1 k =
          some { thread_id := fresh, messages := [], preferences := [],
                 created_at := now } ∧
        (get_or_create_thread_id s k fresh now).2 = fresh) ∧
     (∀ c, storeLookup s k = some c →
        (get_or_create_thread_id s k fresh now).1 = s ∧
        (get_or_create_thread_id s k fresh now).2 = c.thread_id)) ∧
    (get_config s k fresh now = get_or_create_thread_id s k fresh now) ∧
    (((add_message s k fresh now m).map Prod.fst).Nodup ∧
     (∀ k' c, k' ≠ k → storeLookup s k' = some c →
        storeLookup (add_message s k fresh now m) k' = some c) ∧
     (∀ c, storeLookup s k = some c →
        storeLookup (add_message s k fresh now m) k =
          some { c with messages := c.messages ++ [m] }) ∧
     (storeLookup s k = none →
        storeLookup (add_message s k fresh now m) k =
          some { thread_id := fresh, messages := [m], preferences := [],
                 created_at := now }) ∧
     (∀ k' c, storeLookup s k' = some c →
        ∃ c2, storeLookup (add_message s k fresh now m) k' = some c2 ∧
          c2.thread_id = c.thread_id)) := by
  cases hk : storeLookup s k with
  | some c0 =>
    have hg : get_or_create_thread_id s k fresh now = (s, c0.thread_id) := by
      unfold get_or_create_thread_id
      rw [hk]
    have ha : add_message s k fresh now m =
        s.map (fun p => if p.1 = k then (p.1, msgAppend m p.2) else p) := by
      unfold add_message
      rw [if_neg (by rw [hk]; exact fun h => Bool.noConfusion h)]
    refine ⟨⟨?_, ?_, ?_, ?_⟩, rfl, ?_, ?_, ?_, ?_, ?_⟩
    · rw [hg]
      exact hnodup
    · intro k' c hc
      rw [hg]
      exact hc
    · intro h
      exact absurd h (by simp)
    · intro c hc
      cases hc
      rw [hg]
      exact ⟨rfl, rfl⟩
    · rw [ha, mapUpdate_keys]
      exact hnodup
    · intro k' c hne hc
      rw [ha, storeLookup_map_update, if_neg hne]
      exact hc
    · intro c hc
      cases hc
      rw [ha, storeLookup_map_update, if_pos rfl, hk]
      rfl
    · intro h
      exact absurd h (by simp)
    · intro k' c hc
      by_cases hne : k' = k
      · subst hne
        rw [hk] at hc
        cases hc
        refine ⟨msgAppend m c0, ?_, rfl⟩
        rw [ha, storeLookup_map_update, if_pos rfl, hk]
        rfl
      · refine ⟨c, ?_, rfl⟩
        rw [ha, storeLookup_map_update, if_neg hne]
        exact hc
  | none =>
    have hg : get_or_create_thread_id s k fresh now =
        (s ++ [(k, { thread_id := fresh, messages := [], preferences := [], created_at := now })], fresh) := by
      unfold get_or_create_thread_id
      rw [hk]
    have hnotmem : k ∉ s.map Prod.fst := (storeLookup_none_iff s k).mp hk
    have hnodup2 : ((s ++ [(k, ({ thread_id := fresh, messages := [], preferences := [], created_at := now } : ConvContext))]).map Prod.fst).Nodup := by
      rw [List.map_append]
      refine List.Nodup.append hnodup (List.nodup_singleton k) ?_
      intro a ha hb
      simp only [List.map_cons, List.map_nil, List.mem_singleton] at hb
      exact hnotmem (hb ▸ ha)
    have ha : add_message s k fresh now m =
        (s ++ [(k, ({ thread_id := fresh, messages := [], preferences := [], created_at := now } : ConvContext))]).map
          (fun p => if p.1 = k then (p.1, msgAppend m p.2) else p) := by
      unfold add_message
      rw [if_pos (by rw [hk]; rfl), hg]
    refine ⟨⟨?_, ?_, ?_, ?_⟩, rfl, ?_, ?_, ?_, ?_, ?_⟩
    · rw [hg]
      exact hnodup2
    · intro k' c hc
      rw [hg]
      dsimp only
      rw [storeLookup_append_single, hc]
    · intro _
      rw [hg]
      dsimp only
      rw [storeLookup_append_single, hk]
      exact ⟨by rw [if_pos rfl], rfl⟩
    · intro c hc
      exact absurd hc (by simp)
    · rw [ha, mapUpdate_keys]
      exact hnodup2
    · intro k' c hne hc
      rw [ha, storeLookup_map_update, if_neg hne, storeLookup_append_single, hc]
    · intro c hc
      exact absurd hc (by simp)
    · intro _
      rw [ha, storeLookup_map_update, if_pos rfl, storeLookup_append_single, hk]
      rw [if_pos rfl]
      rfl
    · intro k' c hc
      have hne : ¬ k' = k := by
        intro h
        rw [h, hk] at hc
        exact absurd hc (by simp)
      refine ⟨c, ?_, rfl⟩
      rw [ha, storeLookup_map_update, if_neg hne, storeLookup_append_single, hc]

/-- Witness for C7 at a concrete store over string keys. -/
theorem c7_conversation_store_invariants_witness :
    storeLookup (add_message ([] : ConvStore String) "conv1" "uuid-1" "t0" msgW)
        "conv1" =
      some { thread_id := "uuid-1", messages := [msgW], preferences := [],
             created_at := "t0" } :=
  ((c7_conversation_store_invariants ([] : ConvStore String) "conv1" "uuid-1" "t0" msgW
    List.nodup_nil).2.2.2.2.2.1) rfl

end TourAgent
